import Mathlib

/-!
Shallow embedding of the bot_joby benefits-assistant core
(`src/ai/enhanced-firebase-service.ts` and `src/ai/elevenlab.ts`) and proofs
about its command parser, query executor, analytics calculators, snapshot
cache, command batch runner and pipeline orchestrator.

JavaScript numbers are modelled as exact rationals (`Frac`); a division whose
JS result would be non-finite (NaN or ±Infinity) is modelled as `none` where
only finiteness matters, and by `JsNum` where the sign of the infinity flows
onward.  Strings are Lean `String`s with hand-rolled, kernel-computable
re-implementations of the JS string methods the source uses (`toLowerCase`,
`split`, `includes`, `trim`, `startsWith`).  Case mapping is modelled on the
ASCII range, which covers every string the source compares.
-/

namespace Joby

/-- Exact rational numbers with kernel-computable arithmetic, modelling
JS `number` values.  `d` is kept positive and `n/d` reduced by construction
(every operation normalises); JS binary-float rounding is not modelled. -/
structure Frac where
  n : Int
  d : Nat
deriving DecidableEq, Repr

instance : OfNat Frac k := ⟨⟨k, 1⟩⟩

/-- Normalise a fraction: positive denominator, reduced by gcd.  A zero
denominator is never produced by the model's call sites; it falls back to 0. -/
def Frac.norm (n : Int) (d : Nat) : Frac :=
  if d = 0 then ⟨0, 1⟩
  else
    let g := Int.gcd n d
    ⟨n / g, d / g⟩

def Frac.ofNat (k : Nat) : Frac := ⟨k, 1⟩

def Frac.ofInt (i : Int) : Frac := ⟨i, 1⟩

def Frac.add (a b : Frac) : Frac := Frac.norm (a.n * b.d + b.n * a.d) (a.d * b.d)

def Frac.sub (a b : Frac) : Frac := Frac.norm (a.n * b.d - b.n * a.d) (a.d * b.d)

def Frac.mul (a b : Frac) : Frac := Frac.norm (a.n * b.n) (a.d * b.d)

/-- Division `a / b` for `b` with a nonzero numerator (call sites guard the
zero case, mirroring the JS source or mapping non-finite results away). -/
def Frac.divBy (a b : Frac) : Frac :=
  Frac.norm (a.n * b.d * (if b.n < 0 then -1 else 1)) (a.d * b.n.natAbs)

def Frac.ltb (a b : Frac) : Bool := a.n * b.d < b.n * a.d

def Frac.leb (a b : Frac) : Bool := a.n * b.d ≤ b.n * a.d

def Frac.gt0 (a : Frac) : Bool := 0 < a.n

/-- Model of `parseFloat(x.toFixed(2))` on a finite JS number: round half-up
to two decimals (ECMA `toFixed` picks the larger candidate on ties). -/
def jsToFixed2 (q : Frac) : Frac :=
  Frac.norm (Int.fdiv (200 * q.n + q.d) (2 * q.d)) 100

/-- JS division where a zero denominator yields a non-finite number
(NaN or ±Infinity), collapsed to `none`; used for the percentage fields the
source computes without a zero guard. -/
def jsDivOpt (a b : Frac) : Option Frac :=
  if b.n = 0 then none else some (a.divBy b)

/-- JS numbers including the non-finite values, for the few source
expressions where the sign of an infinity matters downstream. -/
inductive JsNum where
  | fin (q : Frac)
  | posInf
  | negInf
  | nan
deriving DecidableEq, Repr

def JsNum.divNum (a b : Frac) : JsNum :=
  if b.n = 0 then
    if a.n = 0 then .nan else if 0 < a.n then .posInf else .negInf
  else .fin (a.divBy b)

def JsNum.subNum : JsNum → JsNum → JsNum
  | .fin a, .fin b => .fin (a.sub b)
  | .fin _, .posInf => .negInf
  | .fin _, .negInf => .posInf
  | .posInf, .fin _ => .posInf
  | .posInf, .negInf => .posInf
  | .posInf, .posInf => .nan
  | .negInf, .fin _ => .negInf
  | .negInf, .posInf => .negInf
  | .negInf, .negInf => .nan
  | .nan, _ => .nan
  | _, .nan => .nan

def JsNum.divJ : JsNum → JsNum → JsNum
  | .fin a, .fin b => JsNum.divNum a b
  | .fin _, .posInf => .fin 0
  | .fin _, .negInf => .fin 0
  | .posInf, .fin b => if b.n < 0 then .negInf else .posInf
  | .negInf, .fin b => if b.n < 0 then .posInf else .negInf
  | .posInf, .posInf => .nan
  | .posInf, .negInf => .nan
  | .negInf, .posInf => .nan
  | .negInf, .negInf => .nan
  | .nan, _ => .nan
  | _, .nan => .nan

def JsNum.mulPos (k : Frac) : JsNum → JsNum
  | .fin q => .fin (q.mul k)
  | .posInf => .posInf
  | .negInf => .negInf
  | .nan => .nan

def JsNum.gt0 : JsNum → Bool
  | .fin q => q.gt0
  | .posInf => true
  | _ => false

/-- `parseFloat(x.toFixed(2))` lifted to possibly non-finite numbers:
`Infinity.toFixed(2)` is `"Infinity"` and parses back to `Infinity`,
likewise `NaN`. -/
def JsNum.toFix2 : JsNum → JsNum
  | .fin q => .fin (jsToFixed2 q)
  | x => x

/-- Model of JS `String.prototype.toLowerCase` (ASCII range). -/
def jsCharLower (c : Char) : Char :=
  if 65 ≤ c.toNat && c.toNat ≤ 90 then Char.ofNat (c.toNat + 32) else c

def jsLower (s : String) : String := ⟨s.data.map jsCharLower⟩

/-- Split a character list at every occurrence of `sep` (JS
`String.prototype.split` with a one-character separator). -/
def splitChar (sep : Char) : List Char → List (List Char)
  | [] => [[]]
  | c :: rest =>
    let r := splitChar sep rest
    if c == sep then [] :: r
    else
      match r with
      | [] => [[c]]
      | h :: t => (c :: h) :: t

def jsSplit (s : String) (sep : Char) : List String :=
  (splitChar sep s.data).map (fun l => ⟨l⟩)

/-- Model of JS `String.prototype.includes`. -/
def containsSub (hay pat : List Char) : Bool :=
  match hay with
  | [] => pat.isEmpty
  | _ :: rest => pat.isPrefixOf hay || containsSub rest pat

def jsIncludes (s pat : String) : Bool := containsSub s.data pat.data

def jsStartsWith (s p : String) : Bool := p.data.isPrefixOf s.data

def isJsSpace (c : Char) : Bool := c == ' ' || c == '\t' || c == '\n' || c == '\r'

/-- Model of JS `String.prototype.trim`. -/
def jsTrim (s : String) : String :=
  ⟨((s.data.dropWhile isJsSpace).reverse.dropWhile isJsSpace).reverse⟩

/-- Code-point comparison of strings, modelling JS `<` on two strings
(UTF-16 code-unit order coincides with code-point order on the strings the
source compares). -/
def strLtb : List Char → List Char → Bool
  | [], [] => false
  | [], _ :: _ => true
  | _ :: _, [] => false
  | a :: as, b :: bs =>
    if a.toNat < b.toNat then true
    else if b.toNat < a.toNat then false
    else strLtb as bs

def isDigitChar (c : Char) : Bool := 48 ≤ c.toNat && c.toNat ≤ 57

def digitsToNat (l : List Char) : Nat :=
  l.foldl (fun a c => a * 10 + (c.toNat - 48)) 0

/-- Model of JS `Number(string)` restricted to decimal literals: trimmed,
optionally signed, `digits`, `digits.digits`, `.digits` or `digits.`; the
empty (trimmed) string is 0; anything else is NaN (`none`).  Exponent, hex
and `Infinity` forms do not occur in this system's data and are mapped to
NaN. -/
def jsNumberOfString (s : String) : Option Frac :=
  let t := (jsTrim s).data
  if t.isEmpty then some 0
  else
    let sb : Int × List Char :=
      match t with
      | '+' :: r => (1, r)
      | '-' :: r => (-1, r)
      | r => (1, r)
    match splitChar '.' sb.2 with
    | [ip] =>
      if ip.isEmpty then none
      else if ip.all isDigitChar then some (Frac.norm (sb.1 * digitsToNat ip) 1)
      else none
    | [ip, fp] =>
      if ip.isEmpty && fp.isEmpty then none
      else if ip.all isDigitChar && fp.all isDigitChar then
        some (Frac.norm (sb.1 * (digitsToNat ip * 10 ^ fp.length + digitsToNat fp)) (10 ^ fp.length))
      else none
    | _ => none

/-- Model of JS `parseInt(s, 10)`: skip leading whitespace, optional sign,
take the leading digit run; NaN (`none`) when no digit follows. -/
def parseIntJs (s : String) : Option Int :=
  let t := s.data.dropWhile isJsSpace
  let sb : Int × List Char :=
    match t with
    | '+' :: r => (1, r)
    | '-' :: r => (-1, r)
    | r => (1, r)
  let digs := sb.2.takeWhile isDigitChar
  if digs.isEmpty then none else some (sb.1 * digitsToNat digs)

/-- JS truthiness of an optional string field (`undefined` and `""` are
falsy). -/
def strTruthy : Option String → Bool
  | some s => !(s == "")
  | none => false

/-- Insert-or-update in an association list, preserving JS object key
insertion order: a missing key is appended at the end with `f d`, an
existing one is updated in place with `f`. -/
def updateAssoc (k : String) (d : α) (f : α → α) : List (String × α) → List (String × α)
  | [] => [(k, f d)]
  | (k', v) :: rest =>
    if k' == k then (k', f v) :: rest else (k', v) :: updateAssoc k d f rest

/-- JS `Set` insertion (insertion order preserved, duplicates ignored). -/
def insertUnique (x : String) (l : List String) : List String :=
  if l.contains x then l else l ++ [x]

/-- Stable insertion sort modelling JS `Array.prototype.sort` with a
comparator: `le a b` holds when the comparator result for `(a, b)` is ≤ 0.
Ties (and the NaN comparator results the source can produce on unknown month
names, which ECMA treats as 0) keep the original relative order. -/
def jsSortInsert (le : α → α → Bool) (x : α) : List α → List α
  | [] => [x]
  | y :: ys => if le y x then y :: jsSortInsert le x ys else x :: y :: ys

def jsSortBy (le : α → α → Bool) (l : List α) : List α :=
  l.foldl (fun acc x => jsSortInsert le x acc) []

/-- Spanish month names in calendar order, as in the source's `months` /
`monthsInSpanish` tables. -/
def monthsEs : List String :=
  ["enero", "febrero", "marzo", "abril", "mayo", "junio",
   "julio", "agosto", "septiembre", "octubre", "noviembre", "diciembre"]

/-- The `monthOrder` table (1-based) used by the sorting comparators. -/
def monthOrderIdx (m : String) : Option Nat :=
  (monthsEs.indexOf? m).map (· + 1)

/-- Calendar dates as the source consumes them: `month0` is the JS 0-based
month.  Values come from `new Date()` (in range) or from `parseDate`
(components taken verbatim; the JS `Date` normalisation of out-of-range
components plays no role in any claim and is not modelled). -/
structure SimpleDate where
  day : Int
  month0 : Int
  year : Int
deriving DecidableEq, Repr

/-- Model of `date.toLocaleDateString('es')` (`D/M/YYYY`). -/
def formatDateEs (d : SimpleDate) : String :=
  toString d.day ++ "/" ++ toString (d.month0 + 1) ++ "/" ++ toString d.year

/-- Ordering key modelling `getTime()` comparisons between parsed benefit
dates; monotone in (year, month, day) for calendar dates. -/
def dateKey (d : SimpleDate) : Int :=
  (d.year * 12 + d.month0) * 32 + d.day

/-- Key of `new Date(0)`, the fallback for missing/unparsable dates. -/
def epochKey : Int := dateKey ⟨1, 0, 1970⟩

def dateKeyOpt : Option SimpleDate → Int
  | some d => dateKey d
  | none => epochKey

/-- Embedding of `EnhancedFirebaseService.parseDate`: strict `DD/MM/YYYY`
via `split('/')` and `parseInt`; anything else is `null`. -/
def parseDateModel (s : String) : Option SimpleDate :=
  if s == "" || s == "N/A" then none
  else
    match jsSplit s '/' with
    | [p1, p2, p3] =>
      match parseIntJs p1, parseIntJs p2, parseIntJs p3 with
      | some d, some m, some y => some ⟨d, m - 1, y⟩
      | _, _, _ => none
    | _ => none

def isLeapYear (y : Int) : Bool :=
  (y % 4 == 0 && y % 100 != 0) || y % 400 == 0

/-- Days in 0-based month `m0` of year `y`, as computed by
`new Date(year, month + 1, 0).getDate()`. -/
def daysInMonth (y m0 : Int) : Nat :=
  let m := ((m0 % 12) + 12) % 12
  if m == 1 then (if isLeapYear y then 29 else 28)
  else if m == 3 || m == 5 || m == 8 || m == 10 then 30
  else 31

/-- Spanish month name of a 0-based month index
(`toLocaleString('es', month: long)` / the `monthsInSpanish` index table). -/
def monthNameEs (m0 : Int) : String :=
  monthsEs.getD (((m0 % 12) + 12) % 12).toNat ""

/-- JS values that occur as record fields and parsed filter values. -/
inductive Value where
  | vStr (s : String)
  | vNum (q : Frac)
  | vBool (b : Bool)
deriving DecidableEq, Repr

/-- JS strict equality (`===`/`!==`) on the modelled value types: operands
of different types are never equal. -/
def Value.beqv : Value → Value → Bool
  | .vStr a, .vStr b => a == b
  | .vNum a, .vNum b => a == b
  | .vBool a, .vBool b => a == b
  | _, _ => false

instance : BEq Value := ⟨Value.beqv⟩

def isOpChar (c : Char) : Bool := c == '<' || c == '>' || c == '=' || c == '!'

/-- Characters matched by `.` in a JS regex (anything but a line
terminator). -/
def isDotChar (c : Char) : Bool :=
  !(c == '\n' || c == '\r' || c == Char.ofNat 0x2028 || c == Char.ofNat 0x2029)

/-- Leftmost match of the `parseQueryParams` regex
`([^<>=!]+)([<>=!]{1,2})(.+)` with JS backtracking semantics, returning the
three capture groups.  Group 1 must be the maximal run of non-operator
characters before an operator character (shrinking it cannot help, since a
shorter run still ends on a non-operator character); group 2 greedily takes
two operator characters, falling back to one when `(.+)` would otherwise be
empty; failures advance the start position past the attempted operator. -/
def findTripleAux : List Char → Nat → Option (List Char × List Char × List Char)
  | _, 0 => none
  | [], _ => none
  | c :: rest, fuel + 1 =>
    if isOpChar c then findTripleAux rest fuel
    else
      let s := c :: rest
      let g1 := s.takeWhile (fun ch => !isOpChar ch)
      match s.dropWhile (fun ch => !isOpChar ch) with
      | [] => none
      | o1 :: afterO1 =>
        match afterO1 with
        | o2 :: afterO2 =>
          if isOpChar o2 then
            match afterO2.takeWhile isDotChar with
            | [] => some (g1, [o1], (o2 :: afterO2).takeWhile isDotChar)
            | g3 => some (g1, [o1, o2], g3)
          else
            match afterO1.takeWhile isDotChar with
            | [] => findTripleAux afterO1 fuel
            | g3 => some (g1, [o1], g3)
        | [] => findTripleAux afterO1 fuel

def findTriple (s : String) : Option (String × String × String) :=
  (findTripleAux s.data s.data.length).map (fun (a, b, c) => (⟨a⟩, ⟨b⟩, ⟨c⟩))

/-- Operator-symbol conversion of `parseQueryParams`: the six listed symbols
map to themselves (with `=` becoming `==`), anything else the regex can
capture (`!`, `==`, `<>`, ...) falls to the `default` case `==`. -/
def opConvert (op : String) : String :=
  if op == "=" then "=="
  else if op == "<" then "<"
  else if op == ">" then ">"
  else if op == "<=" then "<="
  else if op == ">=" then ">="
  else if op == "!=" then "!="
  else "=="

/-- Value coercion of `parseQueryParams`: literal `true`/`false` become
booleans, strings accepted by `Number` become numbers, the rest stay
strings. -/
def convertValue (valueStr : String) : Value :=
  if valueStr == "true" then .vBool true
  else if valueStr == "false" then .vBool false
  else
    match jsNumberOfString valueStr with
    | some q => .vNum q
    | none => .vStr valueStr

/-- One parsed filter clause: `field`, a converted operator string and a
converted value. -/
structure QueryParam where
  field : String
  operator : String
  value : Value
deriving DecidableEq, Repr

/-- The per-clause body of `parseQueryParams`: a regex match yields the
field/operator/value triple; otherwise the fallback splits on `=` and keeps
the clause only when that yields exactly two parts (a literal equality on
the trimmed part before the `=`). -/
def parseClause (clause : String) : List QueryParam :=
  match findTriple clause with
  | some (field, op, valueStr) =>
    [⟨jsTrim field, opConvert op, convertValue valueStr⟩]
  | none =>
    match jsSplit clause '=' with
    | [field, valueStr] => [⟨jsTrim field, "==", convertValue valueStr⟩]
    | _ => []

/-- Embedding of `EnhancedFirebaseService.parseQueryParams`. -/
def parseQueryParams (paramsString : String) : List QueryParam :=
  if paramsString == "" then []
  else (jsSplit paramsString ',').flatMap parseClause

/-- The `BenefitData` record shape declared by the source (the remote rows
this system consumes).  `Id_usuario` is declared `string | number` and is
modelled as its string form. -/
structure BenefitData where
  id : Option String := none
  Id_usuario : Option String := none
  Nombre : Option String := none
  Mes_de_beneficio : Option String := none
  Beneficio_seleccionado : Option String := none
  Estado : Option String := none
  Fecha_de_eleccion : Option String := none
  Categoria : Option String := none
  Generacion : Option String := none
  H_M : Option String := none
  Inversion : Option Frac := none
  Devolucion : Option Frac := none
  Proveedor_beneficio : Option String := none
deriving DecidableEq, Repr

/-- Dynamic property access `item[field]` on a benefit record; a field
outside the declared shape is `undefined` (`none`). -/
def BenefitData.fieldLookup (b : BenefitData) (f : String) : Option Value :=
  if f == "id" then b.id.map .vStr
  else if f == "Id_usuario" then b.Id_usuario.map .vStr
  else if f == "Nombre" then b.Nombre.map .vStr
  else if f == "Mes_de_beneficio" then b.Mes_de_beneficio.map .vStr
  else if f == "Beneficio_seleccionado" then b.Beneficio_seleccionado.map .vStr
  else if f == "Estado" then b.Estado.map .vStr
  else if f == "Fecha_de_eleccion" then b.Fecha_de_eleccion.map .vStr
  else if f == "Categoria" then b.Categoria.map .vStr
  else if f == "Generacion" then b.Generacion.map .vStr
  else if f == "H_M" then b.H_M.map .vStr
  else if f == "Inversion" then b.Inversion.map .vNum
  else if f == "Devolucion" then b.Devolucion.map .vNum
  else if f == "Proveedor_beneficio" then b.Proveedor_beneficio.map .vStr
  else none

def valueToNum : Value → Option Frac
  | .vNum q => some q
  | .vBool b => some (if b then 1 else 0)
  | .vStr s => jsNumberOfString s

/-- JS abstract relational comparison `a < b`: two strings compare
lexicographically, otherwise both operands coerce to numbers and any NaN
makes the comparison false. -/
def jsLtV (a b : Value) : Bool :=
  match a, b with
  | .vStr x, .vStr y => strLtb x.data y.data
  | _, _ =>
    match valueToNum a, valueToNum b with
    | some x, some y => x.ltb y
    | _, _ => false

def jsLeV (a b : Value) : Bool :=
  match a, b with
  | .vStr x, .vStr y => !strLtb y.data x.data
  | _, _ =>
    match valueToNum a, valueToNum b with
    | some x, some y => x.leb y
    | _, _ => false

def jsGtV (a b : Value) : Bool := jsLtV b a

def jsGeV (a b : Value) : Bool := jsLeV b a

/-- The `==` filter case: case-insensitive comparison when both sides are
strings, JS strict equality otherwise. -/
def filterEq (fv v : Value) : Bool :=
  match fv, v with
  | .vStr a, .vStr b => jsLower a == jsLower b
  | _, _ => fv == v

def filterNeq (fv v : Value) : Bool :=
  match fv, v with
  | .vStr a, .vStr b => !(jsLower a == jsLower b)
  | _, _ => !(fv == v)

/-- Whether one filter clause keeps a record, as in the manual filtering
loop of the `query`/`count` branches of `executeCommands`: an absent field
excludes the record; each operator clears `include` exactly when its
source condition holds (`<` excludes when `fieldValue >= value`, etc.); an
operator string outside the six cases leaves the record included. -/
def paramHolds (item : BenefitData) (p : QueryParam) : Bool :=
  match item.fieldLookup p.field with
  | none => false
  | some fv =>
    if p.operator == "==" then filterEq fv p.value
    else if p.operator == "!=" then filterNeq fv p.value
    else if p.operator == "<" then !jsGeV fv p.value
    else if p.operator == "<=" then !jsGtV fv p.value
    else if p.operator == ">" then !jsLeV fv p.value
    else if p.operator == ">=" then !jsLtV fv p.value
    else true

/-- Conjunction of all filter clauses over one record (the `include`
accumulation). -/
def includeItem (queryParams : List QueryParam) (item : BenefitData) : Bool :=
  queryParams.all (paramHolds item)

/-- The filtering pass of the `query` branch: keep every stored record that
passes all clauses, enriched with its store key under `id`
(`...item, id: key`). -/
def runQueryFilter (queryParams : List QueryParam) (entries : List (String × BenefitData)) :
    List BenefitData :=
  entries.filterMap (fun e =>
    if includeItem queryParams e.2 then some { e.2 with id := some e.1 } else none)

/-- JS `x || 0` on an optional numeric field. -/
def numOr0 : Option Frac → Frac
  | some q => q
  | none => 0

/-- The shared `{error: ...}` text every data-driven calculator returns for
an empty or missing collection. -/
def noDataMsg : String := "No se encontraron datos de beneficios"

/-- Result of `getMonthProgress`. -/
structure MonthProgressData where
  currentDay : Int
  lastDay : Nat
  progress : Int
  month : String
deriving DecidableEq, Repr

/-- Embedding of `EnhancedFirebaseService.getMonthProgress`. -/
def getMonthProgress (currentDate : SimpleDate) : MonthProgressData :=
  let currentDay := currentDate.day
  let lastDay := daysInMonth currentDate.year currentDate.month0
  let progress := Int.fdiv (currentDay * 100) lastDay
  ⟨currentDay, lastDay, progress, monthNameEs currentDate.month0⟩

structure RedemptionRateData where
  date : String
  month : String
  totalBenefits : Nat
  totalRedeemed : Nat
  redemptionRate : Frac
  redeemedOnDate : Nat
  dailyRate : Frac
deriving DecidableEq, Repr

inductive RedemptionRateResult where
  | error (msg : String)
  | ok (d : RedemptionRateData)
deriving DecidableEq, Repr

/-- Embedding of `EnhancedFirebaseService.getRedemptionRate` applied to an
already-fetched collection (the fetch itself is modelled at the
`executeCommands` layer). -/
def getRedemptionRate (date : SimpleDate) (benefitsData : List BenefitData) :
    RedemptionRateResult :=
  if benefitsData.isEmpty then .error noDataMsg
  else
    let dateStr := formatDateEs date
    let currentMonth := monthNameEs date.month0
    let currentMonthBenefits := benefitsData.filter (fun b =>
      strTruthy b.Mes_de_beneficio && (jsLower (b.Mes_de_beneficio.getD "") == currentMonth))
    let redeemedBenefits := currentMonthBenefits.filter (fun b =>
      strTruthy b.Estado &&
        (b.Estado == some "Canjeado" || b.Estado == some "Entregado"))
    let totalBenefits := currentMonthBenefits.length
    let totalRedeemed := redeemedBenefits.length
    let redemptionRate :=
      if totalBenefits > 0 then
        ((Frac.ofNat totalRedeemed).divBy (Frac.ofNat totalBenefits)).mul 100
      else 0
    let benefitsRedeemedOnDate := redeemedBenefits.filter (fun b =>
      if !strTruthy b.Fecha_de_eleccion then false
      else
        match parseDateModel (b.Fecha_de_eleccion.getD "") with
        | some bd => formatDateEs bd == dateStr
        | none => false)
    .ok
      { date := dateStr
        month := currentMonth
        totalBenefits := totalBenefits
        totalRedeemed := totalRedeemed
        redemptionRate := jsToFixed2 redemptionRate
        redeemedOnDate := benefitsRedeemedOnDate.length
        dailyRate :=
          if totalBenefits > 0 then
            jsToFixed2 (((Frac.ofNat benefitsRedeemedOnDate.length).divBy
              (Frac.ofNat totalBenefits)).mul 100)
          else 0 }

/-- Per-month accumulator of the historical-rate grouping. -/
structure MonthAgg where
  total : Nat := 0
  redeemed : Nat := 0
  pending : Nat := 0
  notSelected : Nat := 0
deriving DecidableEq, Repr

/-- One benefit's contribution to its month accumulator (the body of the
`reduce` in `getHistoricalRedemptionRate`). -/
def monthAggStep (b : BenefitData) (m : MonthAgg) : MonthAgg :=
  let m := { m with total := m.total + 1 }
  if strTruthy b.Estado then
    let s := jsLower (b.Estado.getD "")
    if s == "canjeado" || s == "entregado" then { m with redeemed := m.redeemed + 1 }
    else if s == "pendiente" then { m with pending := m.pending + 1 }
    else if s == "no seleccionó" then { m with notSelected := m.notSelected + 1 }
    else m
  else m

/-- The `benefitsByMonth` grouping of `getHistoricalRedemptionRate`:
records without a truthy month, or with month `N/A`, are skipped; keys are
lower-cased month names in first-seen order. -/
def historicalByMonth (benefitsData : List BenefitData) : List (String × MonthAgg) :=
  benefitsData.foldl (fun acc b =>
    if !strTruthy b.Mes_de_beneficio || b.Mes_de_beneficio == some "N/A" then acc
    else updateAssoc (jsLower (b.Mes_de_beneficio.getD "")) {} (monthAggStep b) acc) []

structure MonthRate where
  month : String
  total : Nat
  redeemed : Nat
  pending : Nat
  notSelected : Nat
  redemptionRate : Frac
  pendingRate : Frac
  notSelectedRate : Frac
deriving DecidableEq, Repr

structure DecemberComparison where
  decemberRate : Frac
  otherMonthsRate : Frac
  difference : Frac
  percentageDifference : Option Frac
  isHigher : Bool
deriving DecidableEq, Repr

structure HistoricalRateData where
  monthlyRates : List MonthRate
  totalBenefits : Nat
  totalRedeemed : Nat
  globalRate : Frac
  comparisonWithDecember : Option DecemberComparison
deriving DecidableEq, Repr

inductive HistoricalRateResult where
  | error (msg : String)
  | ok (d : HistoricalRateData)
deriving DecidableEq, Repr

/-- Percentage `part / whole * 100` guarded by `whole > 0 ? ... : 0`, the
pattern the source uses for its guarded rate fields. -/
def guardedPct (part whole : Nat) : Frac :=
  if whole > 0 then ((Frac.ofNat part).divBy (Frac.ofNat whole)).mul 100 else 0

/-- Comparator order of the `monthlyRates.sort`: known months by calendar
index; a comparison involving an unknown month produces NaN, which the sort
treats as equal. -/
def monthRateLe (a b : MonthRate) : Bool :=
  match monthOrderIdx a.month, monthOrderIdx b.month with
  | some x, some y => x ≤ y
  | _, _ => true

/-- Sum of `total` over the non-december months of the grouping (the
`otherMonthsTotal` accumulation). -/
def otherMonthsTotalOf (byMonth : List (String × MonthAgg)) : Nat :=
  ((byMonth.filter (fun e => !(e.1 == "diciembre"))).map (·.2.total)).sum

/-- Sum of `redeemed` over the non-december months of the grouping (the
`otherMonthsRedeemed` accumulation). -/
def otherMonthsRedeemedOf (byMonth : List (String × MonthAgg)) : Nat :=
  ((byMonth.filter (fun e => !(e.1 == "diciembre"))).map (·.2.redeemed)).sum

/-- Embedding of `EnhancedFirebaseService.getHistoricalRedemptionRate` on an
already-fetched collection.  Note that `percentageDifference` divides by
`otherMonthsRate` without a zero guard. -/
def getHistoricalRedemptionRate (benefitsData : List BenefitData) : HistoricalRateResult :=
  if benefitsData.isEmpty then .error noDataMsg
  else
    let benefitsByMonth := historicalByMonth benefitsData
    let monthlyRates := benefitsByMonth.map (fun e =>
      { month := e.1
        total := e.2.total
        redeemed := e.2.redeemed
        pending := e.2.pending
        notSelected := e.2.notSelected
        redemptionRate := jsToFixed2 (guardedPct e.2.redeemed e.2.total)
        pendingRate := jsToFixed2 (guardedPct e.2.pending e.2.total)
        notSelectedRate := jsToFixed2 (guardedPct e.2.notSelected e.2.total) })
    let totalBenefits := (benefitsData.filter (fun b =>
      strTruthy b.Mes_de_beneficio && !(b.Mes_de_beneficio == some "N/A"))).length
    let totalRedeemed := (benefitsData.filter (fun b =>
      strTruthy b.Estado &&
        (b.Estado == some "Canjeado" || b.Estado == some "Entregado") &&
        strTruthy b.Mes_de_beneficio && !(b.Mes_de_beneficio == some "N/A"))).length
    let globalRate := guardedPct totalRedeemed totalBenefits
    let decemberData := benefitsByMonth.lookup "diciembre"
    let otherMonths := (benefitsByMonth.filter (fun e => !(e.1 == "diciembre"))).map (·.1)
    let comparisonWithDecember : Option DecemberComparison :=
      match decemberData with
      | some dd =>
        if otherMonths.length > 0 then
          let decemberRate := guardedPct dd.redeemed dd.total
          let otherMonthsRate :=
            guardedPct (otherMonthsRedeemedOf benefitsByMonth) (otherMonthsTotalOf benefitsByMonth)
          let difference := decemberRate.sub otherMonthsRate
          some
            { decemberRate := jsToFixed2 decemberRate
              otherMonthsRate := jsToFixed2 otherMonthsRate
              difference := jsToFixed2 difference
              percentageDifference :=
                (jsDivOpt difference otherMonthsRate).map (fun x => jsToFixed2 (x.mul 100))
              isHigher := difference.gt0 }
        else none
      | none => none
    .ok
      { monthlyRates := jsSortBy monthRateLe monthlyRates
        totalBenefits := totalBenefits
        totalRedeemed := totalRedeemed
        globalRate := jsToFixed2 globalRate
        comparisonWithDecember := comparisonWithDecember }

structure CategoryInvestment where
  category : String
  investment : Frac
  count : Nat
  percentage : Option Frac
deriving DecidableEq, Repr

structure InvestmentData where
  month : String
  totalInvestment : Frac
  totalRefund : Frac
  netInvestment : Frac
  countBenefits : Nat
  investmentByCategory : List CategoryInvestment
deriving DecidableEq, Repr

inductive InvestmentResult where
  | error (msg : String)
  | ok (d : InvestmentData)
deriving DecidableEq, Repr

/-- Embedding of `EnhancedFirebaseService.getMonthlyInvestment` on an
already-fetched collection.  `month = none` models a missing/falsy month
argument, which falls back to the current calendar month.  Note that each
category `percentage` divides by `totalInvestment` without a zero guard. -/
def getMonthlyInvestment (month : Option String) (currentMonthIdx : Int)
    (benefitsData : List BenefitData) : InvestmentResult :=
  let targetMonth := match month with
    | some m => m
    | none => monthNameEs currentMonthIdx
  if benefitsData.isEmpty then .error noDataMsg
  else
    let monthBenefits := benefitsData.filter (fun b =>
      strTruthy b.Mes_de_beneficio &&
        (jsLower (b.Mes_de_beneficio.getD "") == jsLower targetMonth))
    let totalInvestment := monthBenefits.foldl (fun s b => s.add (numOr0 b.Inversion)) 0
    let totalRefund := monthBenefits.foldl (fun s b => s.add (numOr0 b.Devolucion)) 0
    let investmentByCategory : List (String × (Frac × Nat)) :=
      monthBenefits.foldl (fun acc b =>
        let category := if strTruthy b.Categoria then b.Categoria.getD "" else "No especificado"
        updateAssoc category (0, 0)
          (fun cd => (cd.1.add (numOr0 b.Inversion), cd.2 + 1)) acc) []
    .ok
      { month := targetMonth
        totalInvestment := totalInvestment
        totalRefund := totalRefund
        netInvestment := totalInvestment.sub totalRefund
        countBenefits := monthBenefits.length
        investmentByCategory :=
          jsSortBy (fun a b => b.investment.leb a.investment)
            (investmentByCategory.map (fun e =>
              { category := e.1
                investment := e.2.1
                count := e.2.2
                percentage :=
                  (jsDivOpt e.2.1 totalInvestment).map (fun x => jsToFixed2 (x.mul 100)) })) }

/-- The per-benefit record pushed into a user's `benefits` list by
`getUserBenefitStatus`. -/
structure BenefitEntry where
  id : Option String
  month : Option String
  selected : String
  status : String
  date : Option String
  category : Option String
  generation : Option String
  gender : Option String
deriving DecidableEq, Repr

def toBenefitEntry (b : BenefitData) : BenefitEntry :=
  { id := b.id
    month := b.Mes_de_beneficio
    selected := if strTruthy b.Beneficio_seleccionado then b.Beneficio_seleccionado.getD "" else "No seleccionado"
    status := if strTruthy b.Estado then b.Estado.getD "" else "Desconocido"
    date := b.Fecha_de_eleccion
    category := b.Categoria
    generation := b.Generacion
    gender := b.H_M }

structure UserBenefits where
  id : String
  name : String
  benefits : List BenefitEntry
deriving DecidableEq, Repr

structure UserStatusEntry where
  id : String
  name : String
  benefits : List BenefitEntry
  latestBenefit : BenefitEntry
deriving DecidableEq, Repr

structure BenefitStatusData where
  totalUsers : Nat
  usersWithPendingBenefits : List UserStatusEntry
  usersWithUsedBenefits : List UserStatusEntry
  usersWithNotSelectedBenefits : List UserStatusEntry
  pendingCount : Nat
  usedCount : Nat
  notSelectedCount : Nat
deriving DecidableEq, Repr

inductive BenefitStatusResult where
  | error (msg : String)
  | ok (d : BenefitStatusData)
deriving DecidableEq, Repr

/-- First element of `benefits` sorted descending by parsed choice date
(stable, missing/unparsable dates at epoch): the element whose date key is
maximal, earliest-first on ties. -/
def pickLatest (l : List BenefitEntry) : Option BenefitEntry :=
  l.foldl (fun best b =>
    match best with
    | none => some b
    | some bb =>
      if dateKeyOpt (parseDateModel (b.date.getD "")) >
         dateKeyOpt (parseDateModel (bb.date.getD ""))
      then some b else best) none

/-- Name comparator of the source's `localeCompare` sorts, modelled by
code-point order. -/
def nameLe (a b : String) : Bool := !strLtb b.data a.data

/-- Embedding of `EnhancedFirebaseService.getUserBenefitStatus` on an
already-fetched collection. -/
def getUserBenefitStatus (month : Option String) (benefitsData : List BenefitData) :
    BenefitStatusResult :=
  if benefitsData.isEmpty then .error noDataMsg
  else
    let filteredBenefits :=
      match month with
      | some m =>
        if m == "" then benefitsData
        else
          benefitsData.filter (fun b =>
            strTruthy b.Mes_de_beneficio &&
              (jsLower (b.Mes_de_beneficio.getD "") == jsLower m))
      | none => benefitsData
    let userBenefits : List (String × UserBenefits) :=
      filteredBenefits.foldl (fun acc b =>
        if !strTruthy b.Id_usuario || !strTruthy b.Nombre then acc
        else
          let userId := b.Id_usuario.getD ""
          updateAssoc userId ⟨userId, b.Nombre.getD "", []⟩
            (fun u => { u with benefits := u.benefits ++ [toBenefitEntry b] }) acc) []
    let classified := userBenefits.foldl (fun (acc : List UserStatusEntry × List UserStatusEntry × List UserStatusEntry) e =>
      match pickLatest e.2.benefits with
      | some latestBenefit =>
        let entry : UserStatusEntry :=
          ⟨e.2.id, e.2.name, e.2.benefits, latestBenefit⟩
        let status := jsLower latestBenefit.status
        if status == "pendiente" then (acc.1 ++ [entry], acc.2.1, acc.2.2)
        else if status == "canjeado" || status == "entregado" then
          (acc.1, acc.2.1 ++ [entry], acc.2.2)
        else if status == "no seleccionó" then (acc.1, acc.2.1, acc.2.2 ++ [entry])
        else acc
      | none => acc) ([], [], [])
    .ok
      { totalUsers := userBenefits.length
        usersWithPendingBenefits := jsSortBy (fun a b => nameLe a.name b.name) classified.1
        usersWithUsedBenefits := jsSortBy (fun a b => nameLe a.name b.name) classified.2.1
        usersWithNotSelectedBenefits := jsSortBy (fun a b => nameLe a.name b.name) classified.2.2
        pendingCount := classified.1.length
        usedCount := classified.2.1.length
        notSelectedCount := classified.2.2.length }

structure ActiveUserLatest where
  selected : String
  status : String
  date : Option String
  category : Option String
deriving DecidableEq, Repr

structure ActiveUser where
  id : String
  name : Option String
  generation : Option String
  gender : Option String
  latestBenefit : ActiveUserLatest
deriving DecidableEq, Repr

structure GenderBreakdown where
  gender : String
  count : Nat
  percentage : Option Frac
deriving DecidableEq, Repr

structure GenerationBreakdown where
  generation : String
  count : Nat
  percentage : Option Frac
deriving DecidableEq, Repr

structure ActiveUsersData where
  month : String
  totalActiveUsers : Nat
  activeUsers : List ActiveUser
  byGender : List GenderBreakdown
  byGeneration : List GenerationBreakdown
deriving DecidableEq, Repr

inductive ActiveUsersResult where
  | error (msg : String)
  | ok (d : ActiveUsersData)
deriving DecidableEq, Repr

/-- Latest benefit record of one user inside `getActiveUsersInMonth` (same
date-descending selection, on the raw records). -/
def pickLatestData (l : List BenefitData) : Option BenefitData :=
  l.foldl (fun best b =>
    match best with
    | none => some b
    | some bb =>
      if dateKeyOpt (parseDateModel (b.Fecha_de_eleccion.getD "")) >
         dateKeyOpt (parseDateModel (bb.Fecha_de_eleccion.getD ""))
      then some b else best) none

/-- Embedding of `EnhancedFirebaseService.getActiveUsersInMonth` on an
already-fetched collection.  Users whose latest record has no `Nombre` are
sorted under the empty name (the source's `localeCompare` on `undefined`
is outside the modelled data). -/
def getActiveUsersInMonth (month : Option String) (currentMonthIdx : Int)
    (benefitsData : List BenefitData) : ActiveUsersResult :=
  let targetMonth := match month with
    | some m => m
    | none => monthNameEs currentMonthIdx
  if benefitsData.isEmpty then .error noDataMsg
  else
    let monthBenefits := benefitsData.filter (fun b =>
      strTruthy b.Mes_de_beneficio &&
        (jsLower (b.Mes_de_beneficio.getD "") == jsLower targetMonth))
    let uniqueUsers := (monthBenefits.filterMap (fun b =>
      if strTruthy b.Id_usuario then b.Id_usuario else none)).foldl
        (fun acc u => insertUnique u acc) []
    let activeUsers := uniqueUsers.filterMap (fun userId =>
      let ub := monthBenefits.filter (fun b => b.Id_usuario == some userId)
      (pickLatestData ub).map (fun latest =>
        ({ id := userId
           name := latest.Nombre
           generation := latest.Generacion
           gender := latest.H_M
           latestBenefit :=
             { selected := if strTruthy latest.Beneficio_seleccionado then latest.Beneficio_seleccionado.getD "" else "No seleccionado"
               status := if strTruthy latest.Estado then latest.Estado.getD "" else "Desconocido"
               date := latest.Fecha_de_eleccion
               category := latest.Categoria } } : ActiveUser)))
    let byGender : List (String × Nat) :=
      activeUsers.foldl (fun acc u =>
        let g := if u.gender == some "H" then "Hombres"
                 else if u.gender == some "M" then "Mujeres"
                 else "No especificado"
        updateAssoc g 0 (· + 1) acc) []
    let byGeneration : List (String × Nat) :=
      activeUsers.foldl (fun acc u =>
        let g := if strTruthy u.generation then u.generation.getD "" else "No especificado"
        updateAssoc g 0 (· + 1) acc) []
    .ok
      { month := targetMonth
        totalActiveUsers := uniqueUsers.length
        activeUsers := jsSortBy (fun a b => nameLe (a.name.getD "") (b.name.getD "")) activeUsers
        byGender := byGender.map (fun e =>
          { gender := e.1
            count := e.2
            percentage :=
              (jsDivOpt (Frac.ofNat e.2) (Frac.ofNat uniqueUsers.length)).map
                (fun x => jsToFixed2 (x.mul 100)) })
        byGeneration := byGeneration.map (fun e =>
          { generation := e.1
            count := e.2
            percentage :=
              (jsDivOpt (Frac.ofNat e.2) (Frac.ofNat uniqueUsers.length)).map
                (fun x => jsToFixed2 (x.mul 100)) }) }

/-- Per-category accumulator of `getTopCategories`. -/
structure CatAgg where
  count : Nat := 0
  redeemed : Nat := 0
  investment : Frac := 0
deriving DecidableEq, Repr

def catAggStep (b : BenefitData) (c : CatAgg) : CatAgg :=
  { count := c.count + 1
    redeemed :=
      if strTruthy b.Estado &&
          (b.Estado == some "Canjeado" || b.Estado == some "Entregado")
      then c.redeemed + 1 else c.redeemed
    investment := c.investment.add (numOr0 b.Inversion) }

structure TopCategory where
  category : String
  count : Nat
  redeemed : Nat
  investment : Frac
  redemptionRate : Option Frac
  percentage : Option Frac
deriving DecidableEq, Repr

structure TopCatByMonth where
  month : String
  topCategory : String
  count : Nat
  percentage : Option Frac
deriving DecidableEq, Repr

structure DecemberCat where
  category : String
  count : Nat
  percentage : Frac
deriving DecidableEq, Repr

structure OtherMonthsCat where
  category : String
  count : Nat
  averagePerMonth : Option Frac
  percentage : Frac
deriving DecidableEq, Repr

structure TopCategoriesData where
  topCategories : List TopCategory
  allCategories : List TopCategory
  totalCategories : Nat
  topCategoryByMonth : List TopCatByMonth
  topDecemberCategories : List DecemberCat
  topOtherMonthsCategories : List OtherMonthsCat
deriving DecidableEq, Repr

inductive TopCategoriesResult where
  | error (msg : String)
  | ok (d : TopCategoriesData)
deriving DecidableEq, Repr

/-- Embedding of `EnhancedFirebaseService.getTopCategories` on an
already-fetched collection. -/
def getTopCategories (benefitsData : List BenefitData) : TopCategoriesResult :=
  if benefitsData.isEmpty then .error noDataMsg
  else
    let categoryCounts : List (String × CatAgg) :=
      benefitsData.foldl (fun acc b =>
        let category := if strTruthy b.Categoria then b.Categoria.getD "" else "No especificado"
        updateAssoc category {} (catAggStep b) acc) []
    let topCategories := jsSortBy (fun a b => b.count ≤ a.count)
      (categoryCounts.map (fun e =>
        ({ category := e.1
           count := e.2.count
           redeemed := e.2.redeemed
           investment := e.2.investment
           redemptionRate :=
             (jsDivOpt (Frac.ofNat e.2.redeemed) (Frac.ofNat e.2.count)).map
               (fun x => jsToFixed2 (x.mul 100))
           percentage :=
             (jsDivOpt (Frac.ofNat e.2.count) (Frac.ofNat benefitsData.length)).map
               (fun x => jsToFixed2 (x.mul 100)) } : TopCategory)))
    let categoryByMonth : List (String × List (String × CatAgg)) :=
      benefitsData.foldl (fun acc b =>
        let month := if strTruthy b.Mes_de_beneficio then b.Mes_de_beneficio.getD "" else "No especificado"
        let category := if strTruthy b.Categoria then b.Categoria.getD "" else "No especificado"
        updateAssoc month [] (updateAssoc category {} (catAggStep b)) acc) []
    let topCategoryByMonth := jsSortBy
      (fun a b =>
        ((monthOrderIdx (jsLower a.month)).getD 999) ≤ ((monthOrderIdx (jsLower b.month)).getD 999))
      (categoryByMonth.map (fun e =>
        let sorted := jsSortBy (fun a b => b.2.count ≤ a.2.count) e.2
        let totalInMonth := (e.2.map (·.2.count)).sum
        match sorted.head? with
        | some top =>
          ({ month := e.1
             topCategory := top.1
             count := top.2.count
             percentage :=
               (jsDivOpt (Frac.ofNat top.2.count) (Frac.ofNat totalInMonth)).map
                 (fun x => jsToFixed2 (x.mul 100)) } : TopCatByMonth)
        | none => { month := e.1, topCategory := "N/A", count := 0, percentage := some 0 }))
    let decemberCategories := (categoryByMonth.lookup "diciembre").getD []
    let decemberTotal := (decemberCategories.map (·.2.count)).sum
    let topDecemberCategories := (jsSortBy (fun a b => b.count ≤ a.count)
      (decemberCategories.map (fun e =>
        ({ category := e.1
           count := e.2.count
           percentage :=
             if decemberTotal > 0 then
               jsToFixed2 ((((Frac.ofNat e.2.count)).divBy (Frac.ofNat decemberTotal)).mul 100)
             else 0 } : DecemberCat)))).take 3
    let otherMonthsCategories : List (String × (Nat × Nat)) :=
      (categoryByMonth.filter (fun e => !(jsLower e.1 == "diciembre"))).foldl
        (fun acc e =>
          e.2.foldl (fun acc2 ce =>
            updateAssoc ce.1 (0, 0) (fun d => (d.1 + ce.2.count, d.2 + 1)) acc2) acc) []
    let otherTotal := (otherMonthsCategories.map (·.2.1)).sum
    let topOtherMonthsCategories := (jsSortBy (fun a b => b.count ≤ a.count)
      (otherMonthsCategories.map (fun e =>
        ({ category := e.1
           count := e.2.1
           averagePerMonth :=
             (jsDivOpt (Frac.ofNat e.2.1) (Frac.ofNat e.2.2)).map jsToFixed2
           percentage :=
             if otherTotal > 0 then
               jsToFixed2 (((Frac.ofNat e.2.1).divBy (Frac.ofNat otherTotal)).mul 100)
             else 0 } : OtherMonthsCat)))).take 3
    .ok
      { topCategories := topCategories.take 5
        allCategories := topCategories
        totalCategories := topCategories.length
        topCategoryByMonth := topCategoryByMonth
        topDecemberCategories := topDecemberCategories
        topOtherMonthsCategories := topOtherMonthsCategories }

/-- Per-month accumulator of `compareDecemberWithOtherMonths`. -/
structure RichAgg where
  total : Nat := 0
  redeemed : Nat := 0
  pending : Nat := 0
  notSelected : Nat := 0
  investment : Frac := 0
  refund : Frac := 0
  categories : List (String × Nat) := []
  providers : List (String × Nat) := []
  users : List String := []
deriving DecidableEq, Repr

def richAggStep (b : BenefitData) (m : RichAgg) : RichAgg :=
  let m := { m with
    total := m.total + 1
    investment := m.investment.add (numOr0 b.Inversion)
    refund := m.refund.add (numOr0 b.Devolucion) }
  let m :=
    if strTruthy b.Estado then
      let s := jsLower (b.Estado.getD "")
      if s == "canjeado" || s == "entregado" then { m with redeemed := m.redeemed + 1 }
      else if s == "pendiente" then { m with pending := m.pending + 1 }
      else if s == "no seleccionó" then { m with notSelected := m.notSelected + 1 }
      else m
    else m
  let m :=
    if strTruthy b.Categoria then
      { m with categories := updateAssoc (b.Categoria.getD "") 0 (· + 1) m.categories }
    else m
  let m :=
    if strTruthy b.Proveedor_beneficio then
      { m with providers := updateAssoc (b.Proveedor_beneficio.getD "") 0 (· + 1) m.providers }
    else m
  if strTruthy b.Id_usuario then
    { m with users := insertUnique (b.Id_usuario.getD "") m.users }
  else m

/-- The `benefitsByMonth` grouping of `compareDecemberWithOtherMonths`. -/
def decemberByMonth (benefitsData : List BenefitData) : List (String × RichAgg) :=
  benefitsData.foldl (fun acc b =>
    if !strTruthy b.Mes_de_beneficio || b.Mes_de_beneficio == some "N/A" then acc
    else updateAssoc (jsLower (b.Mes_de_beneficio.getD "")) {} (richAggStep b) acc) []

structure AvgPerMonth where
  total : Frac := 0
  redeemed : Frac := 0
  pending : Frac := 0
  notSelected : Frac := 0
  investment : Frac := 0
  refund : Frac := 0
deriving DecidableEq, Repr

structure CatCount where
  category : String
  count : Nat
deriving DecidableEq, Repr

structure OtherCatCount where
  category : String
  count : Nat
  avgPerMonth : Option Frac
deriving DecidableEq, Repr

structure DecemberSide where
  total : Nat
  redeemed : Nat
  pending : Nat
  notSelected : Nat
  investment : Frac
  refund : Frac
  uniqueUsers : Nat
  redemptionRate : Frac
  topCategories : List CatCount
deriving DecidableEq, Repr

structure OtherMonthsSide where
  months : List String
  avgPerMonth : AvgPerMonth
  uniqueUsersAvg : JsNum
  redemptionRate : Frac
  topCategories : List OtherCatCount
deriving DecidableEq, Repr

structure MetricDeltas where
  total : Frac
  redeemed : Frac
  pending : Frac
  notSelected : Frac
  investment : Frac
  refund : Frac
  users : JsNum
deriving DecidableEq, Repr

structure CompareConclusion where
  isHigher : Bool
  redemptionRateDiff : Frac
deriving DecidableEq, Repr

structure CompareDecemberData where
  december : DecemberSide
  otherMonths : OtherMonthsSide
  differences : MetricDeltas
  percentageDiff : MetricDeltas
  conclusion : CompareConclusion
deriving DecidableEq, Repr

inductive CompareDecemberResult where
  | error (msg : String)
  | ok (d : CompareDecemberData)
deriving DecidableEq, Repr

/-- Percentage delta `avg > 0 ? parseFloat(((diff / avg) * 100).toFixed(2)) : 0`
on the already-rounded difference and average. -/
def guardedDeltaPct (diff avg : Frac) : Frac :=
  if avg.gt0 then jsToFixed2 ((diff.divBy avg).mul 100) else 0

/-- Embedding of `EnhancedFirebaseService.compareDecemberWithOtherMonths` on
an already-fetched collection.  The two `users` metrics divide by
`otherMonths.length` without a zero guard; they are modelled in `JsNum` so
the signed infinities and NaNs flow exactly as in JS. -/
def compareDecemberWithOtherMonths (benefitsData : List BenefitData) : CompareDecemberResult :=
  if benefitsData.isEmpty then .error noDataMsg
  else
    let benefitsByMonth := decemberByMonth benefitsData
    let decemberData := (benefitsByMonth.lookup "diciembre").getD {}
    let others := benefitsByMonth.filter (fun e => !(e.1 == "diciembre"))
    let otherMonths := others.map (·.1)
    let oTotal := (others.map (·.2.total)).sum
    let oRedeemed := (others.map (·.2.redeemed)).sum
    let oPending := (others.map (·.2.pending)).sum
    let oNotSelected := (others.map (·.2.notSelected)).sum
    let oInvestment := others.foldl (fun s e => s.add e.2.investment) (0 : Frac)
    let oRefund := others.foldl (fun s e => s.add e.2.refund) (0 : Frac)
    let oCategories := others.foldl (fun acc e =>
      e.2.categories.foldl (fun acc2 ce =>
        updateAssoc ce.1 0 (· + ce.2) acc2) acc) ([] : List (String × Nat))
    let oUsers := others.foldl (fun acc e =>
      e.2.users.foldl (fun acc2 u => insertUnique u acc2) acc) ([] : List String)
    let len := otherMonths.length
    let avgPerMonth : AvgPerMonth :=
      if len > 0 then
        { total := jsToFixed2 ((Frac.ofNat oTotal).divBy (Frac.ofNat len))
          redeemed := jsToFixed2 ((Frac.ofNat oRedeemed).divBy (Frac.ofNat len))
          pending := jsToFixed2 ((Frac.ofNat oPending).divBy (Frac.ofNat len))
          notSelected := jsToFixed2 ((Frac.ofNat oNotSelected).divBy (Frac.ofNat len))
          investment := jsToFixed2 (oInvestment.divBy (Frac.ofNat len))
          refund := jsToFixed2 (oRefund.divBy (Frac.ofNat len)) }
      else {}
    let decemberTopCategories := ((jsSortBy (fun a b => b.count ≤ a.count)
      (decemberData.categories.map (fun e => ({ category := e.1, count := e.2 } : CatCount))))).take 3
    let otherMonthsTopCategories := ((jsSortBy (fun a b => b.count ≤ a.count)
      (oCategories.map (fun e =>
        ({ category := e.1
           count := e.2
           avgPerMonth := (jsDivOpt (Frac.ofNat e.2) (Frac.ofNat len)).map jsToFixed2 } : OtherCatCount))))).take 3
    let usersAvg := JsNum.divNum (Frac.ofNat oUsers.length) (Frac.ofNat len)
    let differences : MetricDeltas :=
      { total := jsToFixed2 ((Frac.ofNat decemberData.total).sub avgPerMonth.total)
        redeemed := jsToFixed2 ((Frac.ofNat decemberData.redeemed).sub avgPerMonth.redeemed)
        pending := jsToFixed2 ((Frac.ofNat decemberData.pending).sub avgPerMonth.pending)
        notSelected := jsToFixed2 ((Frac.ofNat decemberData.notSelected).sub avgPerMonth.notSelected)
        investment := jsToFixed2 (decemberData.investment.sub avgPerMonth.investment)
        refund := jsToFixed2 (decemberData.refund.sub avgPerMonth.refund)
        users := JsNum.subNum (.fin (Frac.ofNat decemberData.users.length)) usersAvg }
    let percentageDiff : MetricDeltas :=
      { total := guardedDeltaPct differences.total avgPerMonth.total
        redeemed := guardedDeltaPct differences.redeemed avgPerMonth.redeemed
        pending := guardedDeltaPct differences.pending avgPerMonth.pending
        notSelected := guardedDeltaPct differences.notSelected avgPerMonth.notSelected
        investment := guardedDeltaPct differences.investment avgPerMonth.investment
        refund := guardedDeltaPct differences.refund avgPerMonth.refund
        users :=
          if usersAvg.gt0 then
            ((differences.users.divJ usersAvg).mulPos 100).toFix2
          else .fin 0 }
    .ok
      { december :=
          { total := decemberData.total
            redeemed := decemberData.redeemed
            pending := decemberData.pending
            notSelected := decemberData.notSelected
            investment := decemberData.investment
            refund := decemberData.refund
            uniqueUsers := decemberData.users.length
            redemptionRate :=
              if decemberData.total > 0 then
                jsToFixed2 (((Frac.ofNat decemberData.redeemed).divBy (Frac.ofNat decemberData.total)).mul 100)
              else 0
            topCategories := decemberTopCategories }
        otherMonths :=
          { months := otherMonths
            avgPerMonth := avgPerMonth
            uniqueUsersAvg := usersAvg.toFix2
            redemptionRate :=
              if oTotal > 0 then
                jsToFixed2 (((Frac.ofNat oRedeemed).divBy (Frac.ofNat oTotal)).mul 100)
              else 0
            topCategories := otherMonthsTopCategories }
        differences := differences
        percentageDiff := percentageDiff
        conclusion :=
          { isHigher := differences.total.gt0
            redemptionRateDiff :=
              jsToFixed2 ((guardedPct decemberData.redeemed decemberData.total).sub
                (guardedPct oRedeemed oTotal)) } }

/-- Cache fields of the service (`cachedData` / `lastDataFetch`). -/
structure SvcState where
  cachedData : Option (List BenefitData) := none
  lastDataFetch : Nat := 0
deriving DecidableEq, Repr

/-- Reply of one remote `get(ref(path))`: data found, no data at the path,
or a rejected promise (network/permission failure), which in the source
surfaces as a thrown exception. -/
inductive StoreReply where
  | found (entries : List (String × BenefitData))
  | missing
  | failure (msg : String)

inductive FetchOutcome where
  | ok (data : List BenefitData)
  | thrown (msg : String)
deriving DecidableEq, Repr

structure FetchResult where
  outcome : FetchOutcome
  state : SvcState
  calledStore : Bool
deriving DecidableEq, Repr

/-- The cache TTL constant (`cacheTTL = 300000` ms, five minutes). -/
def cacheTTL : Nat := 300000

/-- Embedding of `EnhancedFirebaseService.fetchAllBenefitsData`: serve the
cached snapshot while it exists and is younger than the TTL, otherwise probe
`firestore` then `realtime/firestore`, store what is found together with the
fetch time, and throw when no path has data.  `calledStore` records whether
the remote store was consulted.  (`now - lastDataFetch` is ℕ-subtraction;
for the monotone clocks of the source the comparison agrees with JS.) -/
def fetchAllBenefitsData (store : String → StoreReply) (now : Nat) (useCache : Bool)
    (st : SvcState) : FetchResult :=
  if useCache && st.cachedData.isSome && (now - st.lastDataFetch < cacheTTL) then
    ⟨.ok (st.cachedData.getD []), st, false⟩
  else
    match store "firestore" with
    | .found entries => ⟨.ok (entries.map (·.2)), ⟨some (entries.map (·.2)), now⟩, true⟩
    | .failure msg => ⟨.thrown msg, st, true⟩
    | .missing =>
      match store "realtime/firestore" with
      | .found entries => ⟨.ok (entries.map (·.2)), ⟨some (entries.map (·.2)), now⟩, true⟩
      | .failure msg => ⟨.thrown msg, st, true⟩
      | .missing => ⟨.thrown "No se encontraron datos en ninguna ruta", st, true⟩

/-- Ambient context of one `executeCommands` run: the connection flag, the
remote store, and the (frozen) clock and calendar date. -/
structure Env where
  isConnected : Bool
  store : String → StoreReply
  now : Nat
  currentDate : SimpleDate

/-- The `result` payload a command can produce. -/
inductive CmdPayload where
  | monthProgress (r : MonthProgressData)
  | redemption (r : RedemptionRateResult)
  | historical (r : HistoricalRateResult)
  | benefitStatus (r : BenefitStatusResult)
  | activeUsers (r : ActiveUsersResult)
  | investment (r : InvestmentResult)
  | topCategories (r : TopCategoriesResult)
  | compareDecember (r : CompareDecemberResult)
  | rawData (d : Option (List (String × BenefitData)))
  | records (rs : List BenefitData)
  | count (n : Nat)
deriving DecidableEq, Repr

/-- The `CommandResult` wire shape `{command, result?, error?}`. -/
structure CommandResult where
  command : String
  result : Option CmdPayload := none
  error : Option String := none
deriving DecidableEq, Repr

/-- Every push site of the source sets exactly one of `result`/`error`;
this constructor captures that shape. -/
def CommandResult.ofOutcome (c : String) : CmdPayload ⊕ String → CommandResult
  | .inl p => ⟨c, some p, none⟩
  | .inr e => ⟨c, none, some e⟩

/-- The `month`/`cache` parameter scan shared by several analytics cases
(an `if / else if` over each parsed parameter).  A non-string `month` value
would be assigned too in JS and later throw inside the calculator; such
parameters do not occur in this system's commands and are not modelled. -/
def extractMonthCache (ps : List QueryParam) : Option String × Bool :=
  ps.foldl (fun mc p =>
    if p.field == "month" && p.operator == "==" then
      (match p.value with
       | .vStr s => some s
       | _ => mc.1, mc.2)
    else if p.field == "cache" && p.operator == "==" then
      (mc.1, p.value == Value.vStr "true" || p.value == Value.vBool true)
    else mc) (none, true)

/-- The `cache`-only parameter scan. -/
def extractCacheOnly (ps : List QueryParam) : Bool :=
  ps.foldl (fun uc p =>
    if p.field == "cache" && p.operator == "==" then
      p.value == Value.vStr "true" || p.value == Value.vBool true
    else uc) true

/-- The `date`/`cache` parameter scan of the `redemption-rate` case:
a string date is parsed with `parseDate`, keeping the previous date when
parsing fails. -/
def extractDateCache (ps : List QueryParam) (d0 : SimpleDate) : SimpleDate × Bool :=
  ps.foldl (fun dc p =>
    if p.field == "date" && p.operator == "==" then
      (match p.value with
       | .vStr s => (parseDateModel s).getD dc.1
       | _ => dc.1, dc.2)
    else if p.field == "cache" && p.operator == "==" then
      (dc.1, p.value == Value.vStr "true" || p.value == Value.vBool true)
    else dc) (d0, true)

/-- Fetch wrapper shared by the data-driven analytics cases: the
calculator's `try/catch` turns a thrown fetch error into its own
`{error: prefix + message}` result value. -/
def withFetched (env : Env) (st : SvcState) (useCache : Bool) (pfx : String)
    (mkErr : String → α) (compute : List BenefitData → α) : α × SvcState :=
  let f := fetchAllBenefitsData env.store env.now useCache st
  match f.outcome with
  | .ok d => (compute d, f.state)
  | .thrown m => (mkErr (pfx ++ m), f.state)

/-- Execution of one `firebase:`-prefixed command (the body of the command
loop of `executeCommands`), returning either a result payload or an error
string, plus the updated cache state. -/
def execFirebaseCommand (env : Env) (st : SvcState) (command : String) :
    (CmdPayload ⊕ String) × SvcState :=
  let parts := jsSplit command ':'
  let operation := parts.getD 1 ""
  if operation == "analytics" then
    let analysisType := parts.get? 2
    let analysisParams :=
      match parts.get? 3 with
      | some p => if p == "" then [] else parseQueryParams p
      | none => []
    if analysisType == some "month-progress" then
      (.inl (.monthProgress (getMonthProgress env.currentDate)), st)
    else if analysisType == some "redemption-rate" then
      let dc := extractDateCache analysisParams env.currentDate
      let r := withFetched env st dc.2 "Error al calcular tasa de canje: "
        RedemptionRateResult.error (getRedemptionRate dc.1)
      (.inl (.redemption r.1), r.2)
    else if analysisType == some "historical-rate" then
      let uc := extractCacheOnly analysisParams
      let r := withFetched env st uc "Error al calcular tasa histórica: "
        HistoricalRateResult.error getHistoricalRedemptionRate
      (.inl (.historical r.1), r.2)
    else if analysisType == some "benefit-status" then
      let mc := extractMonthCache analysisParams
      let r := withFetched env st mc.2 "Error al obtener estado de usuarios: "
        BenefitStatusResult.error (getUserBenefitStatus mc.1)
      (.inl (.benefitStatus r.1), r.2)
    else if analysisType == some "active-users" then
      let mc := extractMonthCache analysisParams
      let r := withFetched env st mc.2 "Error al obtener usuarios activos: "
        ActiveUsersResult.error (getActiveUsersInMonth mc.1 env.currentDate.month0)
      (.inl (.activeUsers r.1), r.2)
    else if analysisType == some "investment" then
      let mc := extractMonthCache analysisParams
      let r := withFetched env st mc.2 "Error al calcular inversión: "
        InvestmentResult.error (getMonthlyInvestment mc.1 env.currentDate.month0)
      (.inl (.investment r.1), r.2)
    else if analysisType == some "top-categories" then
      let uc := extractCacheOnly analysisParams
      let r := withFetched env st uc "Error al obtener top categorías: "
        TopCategoriesResult.error getTopCategories
      (.inl (.topCategories r.1), r.2)
    else if analysisType == some "compare-december" then
      let uc := extractCacheOnly analysisParams
      let r := withFetched env st uc "Error al comparar diciembre: "
        CompareDecemberResult.error compareDecemberWithOtherMonths
      (.inl (.compareDecember r.1), r.2)
    else
      (.inr ("Tipo de análisis desconocido: " ++ analysisType.getD "undefined"), st)
  else
    let path := parts.getD 2 ""
    let queryParams :=
      match parts.get? 3 with
      | some p => if p == "" then [] else parseQueryParams p
      | none => []
    if operation == "get" then
      match env.store path with
      | .found entries => (.inl (.rawData (some entries)), st)
      | .missing => (.inl (.rawData none), st)
      | .failure msg => (.inr (if msg == "" then "Error desconocido" else msg), st)
    else if operation == "query" then
      match env.store ("realtime/" ++ path) with
      | .found entries => (.inl (.records (runQueryFilter queryParams entries)), st)
      | .failure msg => (.inr ("Error al consultar datos: " ++ msg), st)
      | .missing =>
        match env.store path with
        | .found entries => (.inl (.records (runQueryFilter queryParams entries)), st)
        | .failure msg => (.inr ("Error al consultar datos: " ++ msg), st)
        | .missing =>
          match env.store "firestore" with
          | .found entries => (.inl (.records (runQueryFilter queryParams entries)), st)
          | .failure msg => (.inr ("Error al consultar datos: " ++ msg), st)
          | .missing => (.inl (.records []), st)
    else if operation == "count" then
      match env.store ("realtime/" ++ path) with
      | .found entries =>
        (.inl (.count (entries.filter (fun e => includeItem queryParams e.2)).length), st)
      | .failure msg => (.inr ("Error al contar datos: " ++ msg), st)
      | .missing =>
        match env.store path with
        | .found entries =>
          (.inl (.count (entries.filter (fun e => includeItem queryParams e.2)).length), st)
        | .failure msg => (.inr ("Error al contar datos: " ++ msg), st)
        | .missing =>
          match env.store "firestore" with
          | .found entries =>
            (.inl (.count (entries.filter (fun e => includeItem queryParams e.2)).length), st)
          | .failure msg => (.inr ("Error al contar datos: " ++ msg), st)
          | .missing => (.inl (.count 0), st)
    else if operation == "set" then
      (.inr "Operación set no implementada completamente", st)
    else if operation == "update" then
      (.inr "Operación update no implementada completamente", st)
    else
      (.inr ("Operación desconocida: " ++ operation), st)

/-- One iteration of the command loop: commands without the `firebase:`
prefix are skipped without producing a result; the rest produce exactly one
`CommandResult` (any exception inside is caught and becomes the `error`
field). -/
def execOne (env : Env) (st : SvcState) (command : String) :
    Option CommandResult × SvcState :=
  if jsStartsWith command "firebase:" then
    let r := execFirebaseCommand env st command
    (some (CommandResult.ofOutcome command r.1), r.2)
  else (none, st)

def executeCommandsGo (env : Env) : List String → SvcState → List CommandResult × SvcState
  | [], st => ([], st)
  | c :: cs, st =>
    let r := execOne env st c
    let rest := executeCommandsGo env cs r.2
    match r.1 with
    | some cr => (cr :: rest.1, rest.2)
    | none => rest

/-- Embedding of `EnhancedFirebaseService.executeCommands`: a disconnected
service short-circuits to the single `firebase:connection` error result;
otherwise the commands run sequentially against the shared cache state. -/
def executeCommands (env : Env) (st : SvcState) (commands : List String) :
    List CommandResult × SvcState :=
  if !env.isConnected then
    ([{ command := "firebase:connection", error := some "Firebase no está conectado" }], st)
  else executeCommandsGo env commands st

/-- Stage-1 shape `{intent, temporalContext, commands}` of the
multi-model handler. -/
structure GeminiResponse where
  intent : String
  temporalContext : String
  commands : List String
deriving DecidableEq, Repr

/-- The fixed clarification sentence returned when Stage 1 yields no
commands. -/
def clarificationMsg : String :=
  "Lo siento, no pude entender completamente tu consulta. ¿Podrías reformularla o ser más específico?"

/-- The fixed retry sentence returned when every Stage-2 result failed. -/
def retryMsg : String :=
  "Lo siento, tuve problemas al obtener la información solicitada. Por favor, intenta nuevamente en unos momentos."

/-- Observable outcome of one `processMessage` run: the returned text and
whether Stage 2 (command execution) and Stage 3 (interpretation) were
reached. -/
structure PipelineRun where
  response : String
  stage2Invoked : Bool
  stage3Invoked : Bool
deriving DecidableEq, Repr

/-- Embedding of the Stage-1/2/3 control flow of
`MultiModelHandler.processMessage`, with the Stage-1 output and the
external Stage-2/Stage-3 actions abstracted as arguments:
no commands → fixed clarification, all results failed
(`results.every(r => r.error)`, JS truthiness) → fixed retry without
Stage 3, otherwise the interpretation of the results. -/
def processMessageModel (gem : GeminiResponse)
    (exec : List String → List CommandResult)
    (interpret : List CommandResult → String) : PipelineRun :=
  if gem.commands.isEmpty then ⟨clarificationMsg, false, false⟩
  else
    let commandResults := exec gem.commands
    if commandResults.all (fun r => strTruthy r.error) then ⟨retryMsg, true, false⟩
    else ⟨interpret commandResults, true, true⟩

/-- The keyword list of the simulations' category detector. -/
def simCategories : List String :=
  ["comidas", "comida", "mundo", "comidas por el mundo",
   "experiencias", "bienestar", "fitness", "cultura", "deporte",
   "salud", "entretenimiento", "libros", "tech", "tecnología"]

/-- Embedding of `MultiModelHandler.simulateGeminiResponse` (the
deterministic Stage-1 fallback).  `currentMonthIdx` is `getMonth()` of the
wall clock (0–11). -/
def simulateGeminiMMH (currentMonthIdx : Fin 12) (message : String) : GeminiResponse :=
  let lowerMessage := jsLower message
  let temporalContext :=
    match monthsEs.find? (fun m => jsIncludes lowerMessage m) with
    | some m => m
    | none => "Mes actual"
  let temporalContext :=
    if jsIncludes lowerMessage "mes pasado" then
      monthsEs.getD (if currentMonthIdx.val > 0 then currentMonthIdx.val - 1 else 11) ""
    else if jsIncludes lowerMessage "este mes" || jsIncludes lowerMessage "mes actual" then
      monthsEs.getD currentMonthIdx.val ""
    else temporalContext
  let categoryDetected :=
    match simCategories.find? (fun c => jsIncludes lowerMessage c) with
    | some c => c
    | none => ""
  let categoryDetected :=
    if (jsIncludes lowerMessage "comidas" && jsIncludes lowerMessage "mundo") ||
        jsIncludes lowerMessage "comidas por el mundo" then
      "Comidas del Mundo"
    else categoryDetected
  if !(categoryDetected == "") && !(temporalContext == "Mes actual") then
    { intent := "Consultar categoría " ++ categoryDetected ++ " en " ++ temporalContext
      temporalContext := temporalContext
      commands := ["firebase:query:userBenefits:Categoria=" ++ categoryDetected ++
        ",Mes_de_beneficio=" ++ temporalContext] }
  else if !(categoryDetected == "") then
    { intent := "Consultar categoría " ++ categoryDetected
      temporalContext := temporalContext
      commands := ["firebase:query:userBenefits:Categoria=" ++ categoryDetected] }
  else if !(temporalContext == "Mes actual") then
    { intent := "Consultar datos de " ++ temporalContext
      temporalContext := temporalContext
      commands := ["firebase:query:userBenefits:Mes_de_beneficio=" ++ temporalContext] }
  else if jsIncludes lowerMessage "inversión" || jsIncludes lowerMessage "gasto" ||
      jsIncludes lowerMessage "dinero" || jsIncludes lowerMessage "presupuesto" ||
      jsIncludes lowerMessage "invertido" || jsIncludes lowerMessage "gastado" then
    { intent := "Conocer gastos o inversión"
      temporalContext := temporalContext
      commands := ["firebase:analytics:investment:month=" ++ temporalContext] }
  else if jsIncludes lowerMessage "beneficio" || jsIncludes lowerMessage "canje" ||
      jsIncludes lowerMessage "canjeado" || jsIncludes lowerMessage "utilizado" ||
      jsIncludes lowerMessage "uso" then
    { intent := "Ver estado de beneficios"
      temporalContext := temporalContext
      commands := ["firebase:analytics:benefit-status:month=" ++ temporalContext] }
  else if jsIncludes lowerMessage "tasa" || jsIncludes lowerMessage "porcentaje" ||
      jsIncludes lowerMessage "redemption" || jsIncludes lowerMessage "canjeo" then
    { intent := "Conocer tasas de utilización"
      temporalContext := temporalContext
      commands := ["firebase:analytics:redemption-rate"] }
  else if jsIncludes lowerMessage "progreso" || jsIncludes lowerMessage "avance" ||
      jsIncludes lowerMessage "actual" || jsIncludes lowerMessage "estado" then
    { intent := "Ver progreso del mes"
      temporalContext := temporalContext
      commands := ["firebase:analytics:month-progress"] }
  else if jsIncludes lowerMessage "comparar" || jsIncludes lowerMessage "compara" ||
      jsIncludes lowerMessage "versus" || jsIncludes lowerMessage "vs" ||
      (jsIncludes lowerMessage "diciembre" && !jsIncludes temporalContext "diciembre") then
    { intent := "Comparar rendimiento entre periodos"
      temporalContext := temporalContext
      commands := ["firebase:analytics:compare-december"] }
  else if jsIncludes lowerMessage "categoría" || jsIncludes lowerMessage "categoria" ||
      jsIncludes lowerMessage "tipo" || jsIncludes lowerMessage "mejores" ||
      jsIncludes lowerMessage "populares" then
    { intent := "Ver categorías de beneficios"
      temporalContext := temporalContext
      commands := ["firebase:analytics:top-categories"] }
  else if jsIncludes lowerMessage "usuario" || jsIncludes lowerMessage "personas" ||
      jsIncludes lowerMessage "empleados" || jsIncludes lowerMessage "activos" then
    { intent := "Conocer usuarios activos"
      temporalContext := temporalContext
      commands := ["firebase:analytics:active-users:month=" ++ temporalContext] }
  else
    { intent := "Consulta general"
      temporalContext := temporalContext
      commands := ["firebase:analytics:month-progress"] }

/-- Stage-1 shape `{userMessage, commands}` of the Gemini adapter. -/
structure AdapterResponse where
  userMessage : String
  commands : List String
deriving DecidableEq, Repr

/-- Embedding of `GeminiAdapter.simulateGeminiResponse` (the second
simulation variant). -/
def simulateGeminiAdapter (currentMonthIdx : Fin 12) (message : String) : AdapterResponse :=
  let lowerMessage := jsLower message
  let tm :=
    match monthsEs.find? (fun m => jsIncludes lowerMessage m) with
    | some m => (m, true)
    | none => (monthsEs.getD currentMonthIdx.val "", false)
  let tm :=
    if jsIncludes lowerMessage "mes pasado" then
      (monthsEs.getD (if currentMonthIdx.val > 0 then currentMonthIdx.val - 1 else 11) "", true)
    else if jsIncludes lowerMessage "este mes" || jsIncludes lowerMessage "mes actual" then
      (monthsEs.getD currentMonthIdx.val "", true)
    else tm
  let targetMonth := tm.1
  let monthSpecified := tm.2
  let categoryDetected := (simCategories.find? (fun c => jsIncludes lowerMessage c)).isSome
  let commands :=
    if jsIncludes lowerMessage "inversión" || jsIncludes lowerMessage "gasto" ||
        jsIncludes lowerMessage "dinero" || jsIncludes lowerMessage "presupuesto" then
      ["firebase:analytics:investment:month=" ++ targetMonth]
    else if categoryDetected && monthSpecified then
      ["firebase:query:userBenefits:Categoria=Comidas del Mundo,Mes_de_beneficio=" ++ targetMonth]
    else if categoryDetected then
      ["firebase:query:userBenefits:Categoria=Comidas del Mundo"]
    else if monthSpecified then
      ["firebase:query:userBenefits:Mes_de_beneficio=" ++ targetMonth,
       "firebase:analytics:investment:month=" ++ targetMonth]
    else if jsIncludes lowerMessage "beneficio" || jsIncludes lowerMessage "canje" then
      ["firebase:analytics:benefit-status:month=" ++ targetMonth]
    else if jsIncludes lowerMessage "tasa" || jsIncludes lowerMessage "porcentaje" then
      ["firebase:analytics:redemption-rate"]
    else if jsIncludes lowerMessage "progreso" || jsIncludes lowerMessage "avance" then
      ["firebase:analytics:month-progress"]
    else if jsIncludes lowerMessage "comparar" || jsIncludes lowerMessage "diciembre" then
      ["firebase:analytics:compare-december"]
    else if jsIncludes lowerMessage "categoría" || jsIncludes lowerMessage "tipo" then
      ["firebase:analytics:top-categories"]
    else if jsIncludes lowerMessage "usuario" || jsIncludes lowerMessage "personas" then
      ["firebase:analytics:active-users:month=" ++ targetMonth]
    else
      ["firebase:analytics:month-progress"]
  ⟨"Estoy analizando esa información para ti. Dame un momento...", commands⟩

/-- Projection used to inspect the historical-rate result: the
`percentageDifference` field of `comparisonWithDecember` when the
comparison is present. -/
def histPercentageDifference : HistoricalRateResult → Option (Option Frac)
  | .ok r => r.comparisonWithDecember.map (·.percentageDifference)
  | .error _ => none

/-- Projection used to inspect the investment result: the per-category
`percentage` fields. -/
def investCategoryPercentages : InvestmentResult → List (Option Frac)
  | .ok r => r.investmentByCategory.map (·.percentage)
  | .error _ => []

/-- Two benefit records: one redeemed december record and one unredeemed
enero record, so the other-months redemption rate is 0. -/
def c1HistData : List BenefitData :=
  [{ Mes_de_beneficio := some "diciembre", Estado := some "Canjeado" },
   { Mes_de_beneficio := some "enero", Estado := some "Pendiente" }]

/-- One enero record with no `Inversion`, so `totalInvestment` is 0 while a
category entry exists. -/
def c1InvData : List BenefitData :=
  [{ Mes_de_beneficio := some "enero", Categoria := some "X" }]

/-- The investment result computed for `c1InvData` in month enero. -/
def c1InvWitness : InvestmentData :=
  { month := "enero"
    totalInvestment := ⟨0, 1⟩
    totalRefund := ⟨0, 1⟩
    netInvestment := ⟨0, 1⟩
    countBenefits := 1
    investmentByCategory := [⟨"X", ⟨0, 1⟩, 1, none⟩] }

/-- The historical-rate result computed for `c1HistData`. -/
def c1HistWitness : HistoricalRateData :=
  { monthlyRates :=
      [⟨"enero", 1, 0, 1, 0, ⟨0, 1⟩, ⟨100, 1⟩, ⟨0, 1⟩⟩,
       ⟨"diciembre", 1, 1, 0, 0, ⟨100, 1⟩, ⟨0, 1⟩, ⟨0, 1⟩⟩]
    totalBenefits := 2
    totalRedeemed := 1
    globalRate := ⟨50, 1⟩
    comparisonWithDecember := some ⟨⟨100, 1⟩, ⟨0, 1⟩, ⟨100, 1⟩, none, true⟩ }

/-- A record whose `Categoria` differs from a filter value only in case. -/
def c5Rec : BenefitData := { Categoria := some "Comidas" }

/-- A connected environment whose store has no data at any path. -/
def c6Env : Env :=
  { isConnected := true, store := fun _ => .missing, now := 0, currentDate := ⟨1, 0, 2025⟩ }

/-- A connected environment whose store fails on path `boom` and has no
data elsewhere. -/
def c7Env : Env :=
  { isConnected := true
    store := fun p => if p == "boom" then .failure "network down" else .missing
    now := 0
    currentDate := ⟨1, 0, 2025⟩ }

/-- A batch with one non-prefixed command, one command whose store access
fails, and one that succeeds. -/
def c7Cmds : List String := ["hello", "firebase:get:boom", "firebase:count:x:"]

/-- A cache holding one (empty) record fetched at time 0. -/
def c8St : SvcState := ⟨some [{}], 0⟩

/-- A store with data at `firestore` only. -/
def c8Store : String → StoreReply :=
  fun p => if p == "firestore" then .found [("k", {})] else .missing

def c9Gem0 : GeminiResponse := ⟨"", "", []⟩

def c9Gem1 : GeminiResponse := ⟨"", "", ["x"]⟩

def c9Exec : List String → List CommandResult :=
  fun _ => [{ command := "x", error := some "fallo" }]

def c9Interp : List CommandResult → String := fun _ => ""

/-- A disconnected environment. -/
def c10Env : Env :=
  { isConnected := false, store := fun _ => .missing, now := 0, currentDate := ⟨1, 0, 2025⟩ }

/-! Helper lemmas about the model's sorting and filtering combinators. -/

theorem mem_jsSortInsert {le : α → α → Bool} {x a : α} {l : List α} :
    a ∈ jsSortInsert le x l ↔ a = x ∨ a ∈ l := by
  induction l with
  | nil => simp [jsSortInsert]
  | cons y ys ih =>
    simp only [jsSortInsert]
    split
    · simp only [List.mem_cons, ih]
      tauto
    · simp only [List.mem_cons]

theorem mem_jsSortBy {le : α → α → Bool} {a : α} {l : List α} :
    a ∈ jsSortBy le l ↔ a ∈ l := by
  suffices h : ∀ acc, a ∈ l.foldl (fun acc x => jsSortInsert le x acc) acc ↔ a ∈ l ∨ a ∈ acc by
    simpa [jsSortBy] using h []
  induction l with
  | nil => simp
  | cons y ys ih =>
    intro acc
    simp only [List.foldl_cons, ih, mem_jsSortInsert, List.mem_cons]
    tauto

theorem paramHolds_isSome {item : BenefitData} {p : QueryParam}
    (h : paramHolds item p = true) : (item.fieldLookup p.field).isSome = true := by
  unfold paramHolds at h
  cases hf : item.fieldLookup p.field with
  | none => rw [hf] at h; simp at h
  | some v => simp

theorem value_beq_num (q r : Frac) : (Value.vNum q == Value.vNum r) = (q == r) := rfl

theorem value_beq_num_str (q : Frac) (b : String) :
    (Value.vNum q == Value.vStr b) = false := rfl

theorem ofOutcome_command (c : String) (o : CmdPayload ⊕ String) :
    (CommandResult.ofOutcome c o).command = c := by
  cases o <;> rfl

/-- C1, counterexample: the claim says every percentage field is computed
with a division-by-zero guard yielding 0, so none is ever NaN or infinite.
On `c1HistData` the other-months rate is 0 and historical-rate's
`comparisonWithDecember.percentageDifference` is non-finite (`none`), and on
`c1InvData` `totalInvestment` is 0 and investment's per-category
`percentage` is non-finite — exactly the two fields the claim names as
guarded. -/
theorem c1_counterexample :
    histPercentageDifference (getHistoricalRedemptionRate c1HistData) = some none ∧
    investCategoryPercentages (getMonthlyInvestment (some "enero") 0 c1InvData) = [none] := by
  decide

/-- C1, amended: the named percentage fields are the unguarded ones; each is
non-finite exactly when its denominator is zero.  For every collection and
month, a category's `percentage` in the investment result is NaN/infinite
(`none`) iff `totalInvestment` is 0, and `percentageDifference` in the
historical-rate comparison (when present) is NaN/infinite iff the
other-months redemption rate is 0. -/
theorem c1_amended :
    (∀ (month : Option String) (cm : Int) (data : List BenefitData) (d : InvestmentData),
      getMonthlyInvestment month cm data = .ok d →
      ∀ c ∈ d.investmentByCategory, (c.percentage = none ↔ d.totalInvestment.n = 0)) ∧
    (∀ (data : List BenefitData) (h : HistoricalRateData) (comp : DecemberComparison),
      getHistoricalRedemptionRate data = .ok h →
      h.comparisonWithDecember = some comp →
      (comp.percentageDifference = none ↔
        (guardedPct (otherMonthsRedeemedOf (historicalByMonth data))
          (otherMonthsTotalOf (historicalByMonth data))).n = 0)) := by
  constructor
  · intro month cm data d hok c hc
    simp only [getMonthlyInvestment] at hok
    split at hok
    · exact absurd hok (by simp)
    · simp only [InvestmentResult.ok.injEq] at hok
      subst hok
      simp only [mem_jsSortBy, List.mem_map] at hc
      obtain ⟨e, _, rfl⟩ := hc
      simp only [jsDivOpt]
      split
      · simp_all
      · simp_all
  · intro data h comp hok hcomp
    simp only [getHistoricalRedemptionRate] at hok
    split at hok
    · exact absurd hok (by simp)
    · simp only [HistoricalRateResult.ok.injEq] at hok
      subst hok
      simp only at hcomp
      split at hcomp
      · split at hcomp
        · simp only [Option.some.injEq] at hcomp
          subst hcomp
          simp only [jsDivOpt]
          split
          · simp_all
          · simp_all
        · exact absurd hcomp (by simp)
      · exact absurd hcomp (by simp)

/-- C1, witness for the amended theorem: both equivalences instantiated on
the concrete counterexample collections. -/
theorem c1_amended_witness :
    ((none : Option Frac) = none ↔ c1InvWitness.totalInvestment.n = 0) ∧
    ((none : Option Frac) = none ↔
      (guardedPct (otherMonthsRedeemedOf (historicalByMonth c1HistData))
        (otherMonthsTotalOf (historicalByMonth c1HistData))).n = 0) := by
  constructor
  · exact c1_amended.1 (some "enero") 0 c1InvData c1InvWitness (by decide)
      ⟨"X", ⟨0, 1⟩, 1, none⟩ (by decide)
  · exact c1_amended.2 c1HistData c1HistWitness
      ⟨⟨100, 1⟩, ⟨0, 1⟩, ⟨100, 1⟩, none, true⟩ (by decide) (by decide)

/-- C2, counterexample: on the input
`"¿cuánto gastamos en diciembre?"` neither Stage-1 simulation returns the
single analytics investment command the claim promises: the month branch
fires first in both variants. -/
theorem c2_counterexample :
    (simulateGeminiMMH 0 "¿cuánto gastamos en diciembre?").commands ≠
      ["firebase:analytics:investment:month=diciembre"] ∧
    (simulateGeminiAdapter 0 "¿cuánto gastamos en diciembre?").commands ≠
      ["firebase:analytics:investment:month=diciembre"] := by decide

/-- C2, amended: whatever the current month, the multi-model simulation
maps `"¿cuánto gastamos en diciembre?"` to the single query command
`firebase:query:userBenefits:Mes_de_beneficio=diciembre`, and the adapter
simulation maps it to that query command followed by
`firebase:analytics:investment:month=diciembre` — the investment command
appears only as the second element of the adapter variant. -/
theorem c2_amended : ∀ idx : Fin 12,
    (simulateGeminiMMH idx "¿cuánto gastamos en diciembre?").commands =
      ["firebase:query:userBenefits:Mes_de_beneficio=diciembre"] ∧
    (simulateGeminiAdapter idx "¿cuánto gastamos en diciembre?").commands =
      ["firebase:query:userBenefits:Mes_de_beneficio=diciembre",
       "firebase:analytics:investment:month=diciembre"] := by decide

/-- C3, counterexample: the claim says every unparsable clause degrades to
an equality filter on the substring before the first `=`; but a clause with
no `=` (`"abc"`) or with two `=` characters the regex rejects (`"==x"`) is
dropped entirely — `parseQueryParams` returns no filter for it. -/
theorem c3_counterexample :
    parseQueryParams "abc" = [] ∧ parseQueryParams "==x" = [] := by decide

/-- C3, amended: a clause the regex cannot parse degrades to a literal
equality filter on the (trimmed) substring before the `=` exactly when
splitting on `=` yields two parts (one `=` present); otherwise the clause
is dropped. -/
theorem c3_amended : ∀ clause : String, findTriple clause = none →
    ((jsSplit clause '=').length = 2 →
      parseClause clause = [⟨jsTrim ((jsSplit clause '=').getD 0 ""),
        "==", convertValue ((jsSplit clause '=').getD 1 "")⟩]) ∧
    ((jsSplit clause '=').length ≠ 2 → parseClause clause = []) := by
  intro clause hnone
  constructor
  · intro hlen
    simp only [parseClause, hnone]
    rcases hs : jsSplit clause '=' with _ | ⟨f, _ | ⟨v, _ | ⟨w, rest⟩⟩⟩
    · rw [hs] at hlen; simp at hlen
    · rw [hs] at hlen; simp at hlen
    · simp [hs]
    · rw [hs] at hlen; simp at hlen
  · intro hlen
    simp only [parseClause, hnone]
    rcases hs : jsSplit clause '=' with _ | ⟨f, _ | ⟨v, _ | ⟨w, rest⟩⟩⟩
    · simp
    · simp
    · rw [hs] at hlen; simp at hlen
    · simp

/-- C3, witness: the amended theorem applied to the unparsable clauses
`"x="` (one `=`: degrades to an equality filter) and `"abc"` (no `=`:
dropped). -/
theorem c3_amended_witness :
    parseClause "x=" = [⟨jsTrim ((jsSplit "x=" '=').getD 0 ""),
      "==", convertValue ((jsSplit "x=" '=').getD 1 "")⟩] ∧
    parseClause "abc" = [] :=
  ⟨(c3_amended "x=" (by decide)).1 (by decide),
   (c3_amended "abc" (by decide)).2 (by decide)⟩

/-- C4: a filter clause on a field excludes every record on which the field
is absent — a record missing the field never passes the filter conjunction,
and every record returned by the query filtering pass comes from a stored
record that has every filtered field (filtered set ⊆ has-field set); being a
total function, the filter never raises an error. -/
theorem c4_query_excludes_missing_field :
    ∀ (queryParams : List QueryParam) (p : QueryParam), p ∈ queryParams →
    (∀ item : BenefitData, item.fieldLookup p.field = none →
      includeItem queryParams item = false) ∧
    (∀ entries r, r ∈ runQueryFilter queryParams entries →
      ∃ k item, (k, item) ∈ entries ∧ r = { item with id := some k } ∧
        (item.fieldLookup p.field).isSome = true) := by
  intro qs p hp
  constructor
  · intro item hnone
    cases hall : includeItem qs item with
    | false => rfl
    | true =>
      exfalso
      have hph := (List.all_eq_true.mp (by simpa [includeItem] using hall)) p hp
      have hs := paramHolds_isSome hph
      rw [hnone] at hs
      simp at hs
  · intro entries r hr
    simp only [runQueryFilter, List.mem_filterMap] at hr
    obtain ⟨⟨k, item⟩, hmem, hcond⟩ := hr
    split at hcond
    case isTrue hinc =>
      refine ⟨k, item, hmem, (Option.some.inj hcond).symm, ?_⟩
      exact paramHolds_isSome ((List.all_eq_true.mp (by simpa [includeItem] using hinc)) p hp)
    case isFalse => simp at hcond

/-- C4, witness: a record without `Categoria` is excluded by the parsed
filter `Categoria=comidas`. -/
theorem c4_witness :
    includeItem (parseQueryParams "Categoria=comidas") {} = false :=
  (c4_query_excludes_missing_field (parseQueryParams "Categoria=comidas")
    ⟨"Categoria", "==", .vStr "comidas"⟩ (by decide)).1 {} (by decide)

/-- C5: string equality and inequality filters compare case-insensitively
(`Categoria=comidas` matches `Categoria: "Comidas"`, and `!=` excludes a
record whose field equals the value ignoring case), while numeric fields
use native (strict) equality and a numeric field never equals a string
filter value. -/
theorem c5_string_eq_case_insensitive :
    ∀ (item : BenefitData) (f : String) (a b : String) (q r : Frac),
    (item.fieldLookup f = some (.vStr a) →
      paramHolds item ⟨f, "==", .vStr b⟩ = (jsLower a == jsLower b) ∧
      paramHolds item ⟨f, "!=", .vStr b⟩ = !(jsLower a == jsLower b)) ∧
    (item.fieldLookup f = some (.vNum q) →
      paramHolds item ⟨f, "==", .vNum r⟩ = (q == r) ∧
      paramHolds item ⟨f, "!=", .vNum r⟩ = !(q == r)) ∧
    (item.fieldLookup f = some (.vNum q) →
      paramHolds item ⟨f, "==", .vStr b⟩ = false) := by
  intro item f a b q r
  refine ⟨fun hf => ?_, fun hf => ?_, fun hf => ?_⟩ <;>
    simp [paramHolds, hf, filterEq, filterNeq, value_beq_num, value_beq_num_str]

/-- C5, witness: `Categoria=comidas` matches the record with
`Categoria: "Comidas"`, and `Categoria!=comidas` excludes it. -/
theorem c5_witness :
    paramHolds c5Rec ⟨"Categoria", "==", .vStr "comidas"⟩ = true ∧
    paramHolds c5Rec ⟨"Categoria", "!=", .vStr "comidas"⟩ = false := by
  have h := (c5_string_eq_case_insensitive c5Rec "Categoria" "Comidas" "comidas" 0 0).1 (by decide)
  rw [h.1, h.2]
  decide

/-- C6: every data-driven analytics calculator applied to an empty
collection returns the explicit no-data error variant (a result value, not
an exception); and when the collection is absent (no store path has data),
the fetch wrapper still returns the calculator's error result value —
shown for redemption-rate, the calculator the claim singles out. -/
theorem c6_empty_or_absent :
    (∀ (date : SimpleDate) (month : Option String) (cm : Int),
      getRedemptionRate date [] = .error noDataMsg ∧
      getHistoricalRedemptionRate [] = .error noDataMsg ∧
      getUserBenefitStatus month [] = .error noDataMsg ∧
      getActiveUsersInMonth month cm [] = .error noDataMsg ∧
      getMonthlyInvestment month cm [] = .error noDataMsg ∧
      getTopCategories [] = .error noDataMsg ∧
      compareDecemberWithOtherMonths [] = .error noDataMsg) ∧
    (∀ (env : Env) (st : SvcState) (date : SimpleDate),
      (∀ p, env.store p = .missing) → st.cachedData = none →
      withFetched env st true "Error al calcular tasa de canje: "
        RedemptionRateResult.error (getRedemptionRate date) =
      (.error ("Error al calcular tasa de canje: " ++
        "No se encontraron datos en ninguna ruta"), st)) := by
  constructor
  · intro date month cm
    exact ⟨rfl, rfl, rfl, rfl, rfl, rfl, rfl⟩
  · intro env st date hstore hcache
    simp [withFetched, fetchAllBenefitsData, hstore, hcache]

/-- C6, witness: both parts instantiated on a concrete date and an
all-missing store. -/
theorem c6_witness :
    getRedemptionRate ⟨1, 0, 2025⟩ [] = .error noDataMsg ∧
    withFetched c6Env {} true "Error al calcular tasa de canje: "
      RedemptionRateResult.error (getRedemptionRate ⟨1, 0, 2025⟩) =
    (.error ("Error al calcular tasa de canje: " ++
      "No se encontraron datos en ninguna ruta"), {}) :=
  ⟨(c6_empty_or_absent.1 ⟨1, 0, 2025⟩ none 0).1,
   c6_empty_or_absent.2 c6Env {} ⟨1, 0, 2025⟩ (fun _ => rfl) rfl⟩

/-- C7: on a connected service, `executeCommands` returns exactly one
`CommandResult` per `firebase:`-prefixed input command, in input order
(non-prefixed commands contribute none), and every result carries exactly
one of `result`/`error` — in particular an exception while executing one
command becomes that command's error result and the remaining commands
still execute. -/
theorem c7_batch_shape :
    ∀ (env : Env) (st : SvcState) (commands : List String), env.isConnected = true →
    ((executeCommands env st commands).1.map (·.command) =
      commands.filter (fun c => jsStartsWith c "firebase:")) ∧
    (∀ r ∈ (executeCommands env st commands).1,
      (r.result.isSome ∧ r.error = none) ∨ (r.result = none ∧ r.error.isSome)) := by
  intro env st commands hconn
  have key : ∀ (cmds : List String) (st' : SvcState),
      ((executeCommandsGo env cmds st').1.map (·.command) =
        cmds.filter (fun c => jsStartsWith c "firebase:")) ∧
      (∀ r ∈ (executeCommandsGo env cmds st').1,
        (r.result.isSome ∧ r.error = none) ∨ (r.result = none ∧ r.error.isSome)) := by
    intro cmds
    induction cmds with
    | nil => intro st'; simp [executeCommandsGo]
    | cons c cs ih =>
      intro st'
      cases hpre : jsStartsWith c "firebase:" with
      | false =>
        simp only [executeCommandsGo, execOne, hpre, Bool.false_eq_true, if_false,
          List.filter_cons, ite_false]
        exact ih _
      | true =>
        simp only [executeCommandsGo, execOne, hpre, if_true, List.filter_cons, ite_true]
        constructor
        · simp [(ih _).1, ofOutcome_command]
        · intro r hr
          simp only [List.mem_cons] at hr
          rcases hr with rfl | hr
          · cases hout : (execFirebaseCommand env st' c).1 with
            | inl p => simp [CommandResult.ofOutcome, hout]
            | inr e => simp [CommandResult.ofOutcome, hout]
          · exact (ih _).2 r hr
  have hgo : executeCommands env st commands = executeCommandsGo env commands st := by
    simp [executeCommands, hconn]
  rw [hgo]
  exact key commands st

/-- C7, witness: a batch with a non-prefixed command (skipped), a command
whose store access fails (converted to an error result) and a later command
that still executes and succeeds. -/
theorem c7_witness :
    ((executeCommands c7Env {} c7Cmds).1.map (·.command) =
      ["firebase:get:boom", "firebase:count:x:"]) ∧
    ((executeCommands c7Env {} c7Cmds).1.map (·.error) =
      [some "network down", none]) :=
  ⟨((c7_batch_shape c7Env {} c7Cmds rfl).1).trans (by decide), by decide⟩

/-- C8: while a cached snapshot exists and both request times lie within
the 5-minute TTL of the stored fetch timestamp, `fetchAllBenefitsData`
returns the identical cached collection without touching the remote store
or the state; with `useCache = false` or at/after TTL expiry it calls the
store, returns the fresh collection and records it with the new fetch
timestamp. -/
theorem c8_cache_ttl :
    ∀ (store : String → StoreReply) (st : SvcState) (d : List BenefitData)
      (t1 t2 t : Nat) (entries : List (String × BenefitData)) (uc : Bool),
    (st.cachedData = some d → t1 - st.lastDataFetch < cacheTTL →
      t2 - st.lastDataFetch < cacheTTL →
      fetchAllBenefitsData store t1 true st = ⟨.ok d, st, false⟩ ∧
      fetchAllBenefitsData store t2 true st = ⟨.ok d, st, false⟩) ∧
    ((uc = false ∨ cacheTTL ≤ t - st.lastDataFetch) → store "firestore" = .found entries →
      fetchAllBenefitsData store t uc st =
        ⟨.ok (entries.map (·.2)), ⟨some (entries.map (·.2)), t⟩, true⟩) := by
  intro store st d t1 t2 t entries uc
  constructor
  · intro hc h1 h2
    constructor
    · simp [fetchAllBenefitsData, hc, h1]
    · simp [fetchAllBenefitsData, hc, h2]
  · intro hexp hf
    rcases hexp with h | h
    · subst h; simp [fetchAllBenefitsData, hf]
    · simp [fetchAllBenefitsData, hf, Nat.not_lt.mpr h]

/-- C8, witness: two in-TTL reads return the cached collection without a
store call; a read at TTL expiry fetches, stores and returns fresh data. -/
theorem c8_witness :
    fetchAllBenefitsData c8Store 100 true c8St = ⟨.ok [{}], c8St, false⟩ ∧
    fetchAllBenefitsData c8Store 200 true c8St = ⟨.ok [{}], c8St, false⟩ ∧
    fetchAllBenefitsData c8Store 300000 true c8St =
      ⟨.ok [{}], ⟨some [{}], 300000⟩, true⟩ := by
  refine ⟨?_, ?_, ?_⟩
  · exact ((c8_cache_ttl c8Store c8St [{}] 100 200 300000 [("k", {})] true).1
      rfl (by decide) (by decide)).1
  · exact ((c8_cache_ttl c8Store c8St [{}] 100 200 300000 [("k", {})] true).1
      rfl (by decide) (by decide)).2
  · exact (c8_cache_ttl c8Store c8St [{}] 100 200 300000 [("k", {})] true).2
      (Or.inr (by decide)) rfl

/-- C9: the three-stage orchestrator never runs a later stage after an
empty or fully failed earlier one — zero Stage-1 commands yield the fixed
clarification sentence with neither Stage 2 nor Stage 3 invoked, and when
every Stage-2 result carries a (non-empty) error the fixed retry sentence
is returned without invoking Stage 3. -/
theorem c9_stage_gating :
    ∀ (gem : GeminiResponse) (exec : List String → List CommandResult)
      (interpret : List CommandResult → String),
    (gem.commands = [] →
      processMessageModel gem exec interpret = ⟨clarificationMsg, false, false⟩) ∧
    (gem.commands ≠ [] →
      (∀ r ∈ exec gem.commands, ∃ e, r.error = some e ∧ e ≠ "") →
      processMessageModel gem exec interpret = ⟨retryMsg, true, false⟩) := by
  intro gem exec interpret
  constructor
  · intro h
    simp [processMessageModel, h]
  · intro hne hall
    have hAll : (exec gem.commands).all (fun r => strTruthy r.error) = true := by
      rw [List.all_eq_true]
      intro r hr
      obtain ⟨e, he, hne'⟩ := hall r hr
      simp [strTruthy, he, hne']
    simp [processMessageModel, hne, hAll]

/-- C9, witness: a run with zero commands returns the clarification
sentence; a run whose only result is an error returns the retry sentence
without Stage 3. -/
theorem c9_witness :
    processMessageModel c9Gem0 c9Exec c9Interp = ⟨clarificationMsg, false, false⟩ ∧
    processMessageModel c9Gem1 c9Exec c9Interp = ⟨retryMsg, true, false⟩ :=
  ⟨(c9_stage_gating c9Gem0 c9Exec c9Interp).1 rfl,
   (c9_stage_gating c9Gem1 c9Exec c9Interp).2 (by decide)
     (fun r hr => by
       simp only [c9Exec, List.mem_singleton] at hr
       subst hr
       exact ⟨"fallo", rfl, by decide⟩)⟩

/-- C10: on a disconnected service, `executeCommands` with any non-empty
batch returns the single error-bearing result for the fixed
`firebase:connection` pseudo-command, executing nothing (state
unchanged). -/
theorem c10_disconnected :
    ∀ (env : Env) (st : SvcState) (commands : List String),
    env.isConnected = false → commands ≠ [] →
    executeCommands env st commands =
      ([{ command := "firebase:connection", result := none,
          error := some "Firebase no está conectado" }], st) := by
  intro env st commands hconn _
  simp [executeCommands, hconn]

/-- C10, witness: a disconnected service with a two-command batch. -/
theorem c10_witness :
    executeCommands c10Env {} ["firebase:get:x", "firebase:get:y"] =
      ([{ command := "firebase:connection", result := none,
          error := some "Firebase no está conectado" }], {}) :=
  c10_disconnected c10Env {} ["firebase:get:x", "firebase:get:y"] rfl (by decide)

end Joby
